import Mathlib

/-!
# Geoclue: configuration store and IP source

A shallow embedding of `src/gclue-config.c` and of the response parsers of
`src/gclue-ip.c`.  C strings are Lean strings (`NULL` is `none`; byte strings
that are not UTF-8 are outside the model), `gboolean` is `Bool`, a `GList`/array
with its length is a `List`, and the private struct of the singleton is threaded
explicitly through the loaders.  GLib's key-file parser is not part of these
sources: a loaded key file is represented by its groups and, for every key, by
what each of GLib's typed getters returns for the raw value.
-/

namespace Geoclue

/-! ## C strings -/

/-- Comparison of two character sequences in the manner of `strcmp`: the sign of
the first difference.  Characters are compared by code point, which is the order
of their UTF-8 bytes; only the sign of the result is specified by C. -/
def strcmp_chars : List Char → List Char → Int
  | [], [] => 0
  | [], _ :: _ => -1
  | _ :: _, [] => 1
  | a :: as, b :: bs =>
    if a.toNat < b.toNat then -1
    else if b.toNat < a.toNat then 1
    else strcmp_chars as bs

/-- The libc `strcmp` on two non-NULL strings. -/
def strcmp (a b : String) : Int := strcmp_chars a.data b.data

/-- GLib `g_strcmp0`: `strcmp` that accepts `NULL`, which sorts before every string. -/
def g_strcmp0 (str1 str2 : Option String) : Int :=
  match str1, str2 with
  | none, none => 0
  | none, some _ => -1
  | some _, none => 1
  | some a, some b => strcmp a b

/-- GLib `g_str_has_suffix`. -/
def g_str_has_suffix (str suffix : String) : Bool :=
  suffix.data.isSuffixOf str.data

/-! ## The key file (GLib `GKeyFile`, taken as given) -/

/-- What GLib's typed getters return for one raw value of a key file; `none`
stands for the getter reporting an error (the value does not parse as that
type). -/
structure KeyValue where
  as_boolean : Option Bool
  as_string : Option String
  as_string_list : Option (List String)
  as_integer_list : Option (List Int)
  as_double : Option ℚ
deriving DecidableEq

/-- A successfully loaded key file: its groups in file order, each with its keys. -/
structure GKeyFile where
  groups : List (String × List (String × KeyValue))

/-- The value stored under `group`/`key`, if the group and the key exist. -/
def GKeyFile.value (key_file : GKeyFile) (group_name key : String) : Option KeyValue :=
  match key_file.groups.lookup group_name with
  | none => none
  | some keys => keys.lookup key

/-- GLib `g_key_file_get_groups`. -/
def g_key_file_get_groups (key_file : GKeyFile) : List String :=
  key_file.groups.map Prod.fst

/-- GLib `g_key_file_has_key`. -/
def g_key_file_has_key (key_file : GKeyFile) (group_name key : String) : Bool :=
  (key_file.value group_name key).isSome

/-- GLib `g_key_file_get_boolean`; `none` when the error is set. -/
def g_key_file_get_boolean (key_file : GKeyFile) (group_name key : String) : Option Bool :=
  (key_file.value group_name key).bind KeyValue.as_boolean

/-- GLib `g_key_file_get_string`; `none` when the error is set. -/
def g_key_file_get_string (key_file : GKeyFile) (group_name key : String) : Option String :=
  (key_file.value group_name key).bind KeyValue.as_string

/-- GLib `g_key_file_get_string_list`; `none` when the error is set. -/
def g_key_file_get_string_list (key_file : GKeyFile) (group_name key : String) :
    Option (List String) :=
  (key_file.value group_name key).bind KeyValue.as_string_list

/-- GLib `g_key_file_get_integer_list`; `none` when the error is set. -/
def g_key_file_get_integer_list (key_file : GKeyFile) (group_name key : String) :
    Option (List Int) :=
  (key_file.value group_name key).bind KeyValue.as_integer_list

/-- GLib `g_key_file_get_double`; `none` when the error is set. -/
def g_key_file_get_double (key_file : GKeyFile) (group_name key : String) : Option ℚ :=
  (key_file.value group_name key).bind KeyValue.as_double

/-! ## The configuration store -/

/-- The per-application entry `AppConfig`; `users` is the array with `num_users`. -/
structure AppConfig where
  id : String
  allowed : Bool
  system : Bool
  users : List Int
deriving DecidableEq

/-- The private data of `GClueConfig` (`struct _GClueConfigPrivate`), without the
key-file handle, which the loaders receive as an argument. -/
structure GClueConfigPrivate where
  agents : List String
  wifi_url : Option String
  wifi_submit : Bool
  enable_nmea_source : Bool
  enable_3g_source : Bool
  enable_cdma_source : Bool
  enable_modem_gps_source : Bool
  enable_wifi_source : Bool
  enable_compass : Bool
  enable_static_source : Bool
  enable_ip_source : Bool
  wifi_submit_url : Option String
  wifi_submit_nick : Option String
  nmea_socket : Option String
  ip_method : Option String
  ip_url : Option String
  ip_accuracy : ℚ
  app_configs : List AppConfig
deriving DecidableEq

/-- The build-time constants of `config.h` and `gclue-location.h` that the
configuration code refers to. -/
structure BuildConfig where
  use_wifi_source : Bool
  use_3g_source : Bool
  use_cdma_source : Bool
  use_modem_gps_source : Bool
  use_nmea_source : Bool
  use_compass : Bool
  use_static_source : Bool
  use_ip_source : Bool
  default_wifi_url : String
  default_wifi_submit_url : String
  accuracy_unknown : ℚ

/-- The result type `GClueAppPerm`. -/
inductive GClueAppPerm where
  | GCLUE_APP_PERM_ALLOWED
  | GCLUE_APP_PERM_DISALLOWED
  | GCLUE_APP_PERM_ASK_AGENT
deriving DecidableEq, Repr

open GClueAppPerm

/-- The peer identity `GClueClientInfo`, of which the configuration only reads the uid. -/
structure GClueClientInfo where
  user_id : Nat

/-- Modelled from the spec: the accessor `gclue_client_info_get_user_id` of
`gclue-client-info.c`, which is not among these sources; it yields the uid of
the peer's AppIdentity. -/
def gclue_client_info_get_user_id (info : GClueClientInfo) : Nat := info.user_id

/-- The conversion C applies to an `int` compared with a `guint64`. -/
def int_to_guint64 (i : Int) : Nat := (i % 2 ^ 64).toNat

/-- The loop that `gclue_config_get_app_perm`, `gclue_config_is_system_component`
and `load_app_configs` all run over `priv->app_configs`: the first entry whose
id is `strcmp`-equal to the given one. -/
def find_app_config (app_configs : List AppConfig) (id : String) : Option AppConfig :=
  app_configs.find? (fun c => strcmp c.id id == 0)

/-- The function `gclue_config_is_agent_allowed`. -/
def gclue_config_is_agent_allowed (priv : GClueConfigPrivate) (desktop_id : Option String)
    (_agent_info : GClueClientInfo) : Bool :=
  priv.agents.any (fun agent => g_strcmp0 desktop_id (some agent) == 0)

/-- The function `gclue_config_get_app_perm`. -/
def gclue_config_get_app_perm (priv : GClueConfigPrivate) (desktop_id : Option String)
    (app_info : GClueClientInfo) : GClueAppPerm :=
  match desktop_id with
  | none => GCLUE_APP_PERM_DISALLOWED
  | some id =>
    match find_app_config priv.app_configs id with
    | none => GCLUE_APP_PERM_ASK_AGENT
    | some app_config =>
      if !app_config.allowed then GCLUE_APP_PERM_DISALLOWED
      else if app_config.users.length == 0 then GCLUE_APP_PERM_ALLOWED
      else
        let uid := gclue_client_info_get_user_id app_info % 2 ^ 64
        if app_config.users.any (fun user => int_to_guint64 user == uid) then
          GCLUE_APP_PERM_ALLOWED
        else GCLUE_APP_PERM_DISALLOWED

/-- The function `gclue_config_is_system_component`. -/
def gclue_config_is_system_component (priv : GClueConfigPrivate)
    (desktop_id : Option String) : Bool :=
  match desktop_id with
  | none => false
  | some id =>
    match find_app_config priv.app_configs id with
    | none => false
    | some app_config => app_config.system

/-! ## Loading one key file -/

/-- The function `load_boolean_value`: the returned pair is the `gboolean` result and
the content of `*value_storage` afterwards. -/
def load_boolean_value (key_file : GKeyFile) (group_name key : String)
    (value_storage : Bool) : Bool × Bool :=
  if g_key_file_has_key key_file group_name key then
    match g_key_file_get_boolean key_file group_name key with
    | some value => (true, value)
    | none => (false, value_storage)
  else (false, value_storage)

/-- The function `load_string_value`. -/
def load_string_value (key_file : GKeyFile) (group_name key : String)
    (value_storage : Option String) : Bool × Option String :=
  if g_key_file_has_key key_file group_name key then
    match g_key_file_get_string key_file group_name key with
    | some value => (true, some value)
    | none => (false, value_storage)
  else (false, value_storage)

/-- The function `load_string_list_value`; the list stands for `*value_storage`
together with `*length_storage`. -/
def load_string_list_value (key_file : GKeyFile) (group_name key : String)
    (value_storage : List String) : Bool × List String :=
  if g_key_file_has_key key_file group_name key then
    match g_key_file_get_string_list key_file group_name key with
    | some value => (true, value)
    | none => (false, value_storage)
  else (false, value_storage)

/-- The function `load_agent_config`. -/
def load_agent_config (key_file : GKeyFile) (priv : GClueConfigPrivate) :
    GClueConfigPrivate :=
  { priv with agents := (load_string_list_value key_file "agent" "whitelist" priv.agents).2 }

/-- The array `known_groups` of `load_app_configs`. -/
def known_groups : List String :=
  ["agent", "wifi", "3g", "cdma", "modem-gps", "network-nmea", "compass",
   "static-source", "ip"]

/-- The three conditional assignments that end the loop body of `load_app_configs`
("New app configs will have all of them, overwrites only some"). -/
def overwrite_app_config (allowed system : Option Bool) (users : Option (List Int))
    (app_config : AppConfig) : AppConfig :=
  let app_config :=
    match allowed with
    | some value => { app_config with allowed := value }
    | none => app_config
  let app_config :=
    match system with
    | some value => { app_config with system := value }
    | none => app_config
  match users with
  | some value => { app_config with users := value }
  | none => app_config

/-- Assignment through the pointer `app_config` that the search loop of
`load_app_configs` found: the first entry with the given id is replaced. -/
def update_app_config (app_configs : List AppConfig) (id : String)
    (f : AppConfig → AppConfig) : List AppConfig :=
  match app_configs with
  | [] => []
  | c :: rest =>
    if strcmp c.id id == 0 then f c :: rest
    else c :: update_app_config rest id f

/-- One iteration of the loop of `load_app_configs`, for the group `group`. -/
def load_app_config_group (key_file : GKeyFile) (app_configs : List AppConfig)
    (group : String) : List AppConfig :=
  if known_groups.any (fun known => strcmp group known == 0) then app_configs
  else
    let new_app_config := (find_app_config app_configs group).isNone
    let allowed := g_key_file_get_boolean key_file group "allowed"
    if allowed.isNone && new_app_config then app_configs
    else
      let system := g_key_file_get_boolean key_file group "system"
      if system.isNone && new_app_config then app_configs
      else
        let users := g_key_file_get_integer_list key_file group "users"
        if users.isNone && new_app_config then app_configs
        else if new_app_config then
          overwrite_app_config allowed system users
            { id := group, allowed := false, system := false, users := [] } :: app_configs
        else update_app_config app_configs group (overwrite_app_config allowed system users)

/-- The function `load_app_configs`. -/
def load_app_configs (key_file : GKeyFile) (priv : GClueConfigPrivate) :
    GClueConfigPrivate :=
  { priv with
    app_configs :=
      (g_key_file_get_groups key_file).foldl (load_app_config_group key_file)
        priv.app_configs }

/-- The function `load_enable_source`. -/
def load_enable_source (key_file : GKeyFile) (group_name : String) (compiled : Bool)
    (value_storage : Bool) : Bool × Bool :=
  match load_boolean_value key_file group_name "enable" false with
  | (false, _) => (false, value_storage)
  | (true, enabled) =>
    if enabled && !compiled then (true, false) else (true, enabled)

/-- The macro `DEFAULT_WIFI_SUBMIT_NICK`. -/
def DEFAULT_WIFI_SUBMIT_NICK : String := "geoclue"

/-- The libc `strlen`: the number of bytes of the string. -/
def strlen (s : String) : Nat := s.utf8ByteSize

/-- The function `string_present`. -/
def string_present (str : Option String) : Bool :=
  match str with
  | none => false
  | some s => s != ""

/-- The function `load_wifi_config`. -/
def load_wifi_config (build : BuildConfig) (key_file : GKeyFile)
    (priv : GClueConfigPrivate) : GClueConfigPrivate :=
  let priv := { priv with
    enable_wifi_source :=
      (load_enable_source key_file "wifi" build.use_wifi_source priv.enable_wifi_source).2 }
  let priv := { priv with wifi_url := (load_string_value key_file "wifi" "url" priv.wifi_url).2 }
  let priv := { priv with
    wifi_url := if priv.wifi_url == some "" then none else priv.wifi_url }
  let priv := { priv with
    wifi_submit := (load_boolean_value key_file "wifi" "submit-data" priv.wifi_submit).2 }
  let priv := { priv with
    wifi_submit_url :=
      (load_string_value key_file "wifi" "submission-url" priv.wifi_submit_url).2 }
  let priv := { priv with
    wifi_submit_url := if priv.wifi_submit_url == some "" then none else priv.wifi_submit_url }
  { priv with
    wifi_submit_nick :=
      match load_string_value key_file "wifi" "submission-nick" none with
      | (true, some wifi_submit_nick) =>
        let nick_length := strlen wifi_submit_nick
        if nick_length != 1 && nick_length ≤ 32 then some wifi_submit_nick
        else priv.wifi_submit_nick
      | _ => priv.wifi_submit_nick }

/-- The function `load_3g_config`. -/
def load_3g_config (build : BuildConfig) (key_file : GKeyFile)
    (priv : GClueConfigPrivate) : GClueConfigPrivate :=
  { priv with
    enable_3g_source :=
      (load_enable_source key_file "3g" build.use_3g_source priv.enable_3g_source).2 }

/-- The function `load_cdma_config`. -/
def load_cdma_config (build : BuildConfig) (key_file : GKeyFile)
    (priv : GClueConfigPrivate) : GClueConfigPrivate :=
  { priv with
    enable_cdma_source :=
      (load_enable_source key_file "cdma" build.use_cdma_source priv.enable_cdma_source).2 }

/-- The function `load_modem_gps_config`. -/
def load_modem_gps_config (build : BuildConfig) (key_file : GKeyFile)
    (priv : GClueConfigPrivate) : GClueConfigPrivate :=
  { priv with
    enable_modem_gps_source :=
      (load_enable_source key_file "modem-gps" build.use_modem_gps_source
        priv.enable_modem_gps_source).2 }

/-- The function `load_network_nmea_config`. -/
def load_network_nmea_config (build : BuildConfig) (key_file : GKeyFile)
    (priv : GClueConfigPrivate) : GClueConfigPrivate :=
  let priv := { priv with
    enable_nmea_source :=
      (load_enable_source key_file "network-nmea" build.use_nmea_source
        priv.enable_nmea_source).2 }
  { priv with
    nmea_socket :=
      (load_string_value key_file "network-nmea" "nmea-socket" priv.nmea_socket).2 }

/-- The function `load_compass_config`. -/
def load_compass_config (build : BuildConfig) (key_file : GKeyFile)
    (priv : GClueConfigPrivate) : GClueConfigPrivate :=
  { priv with
    enable_compass :=
      (load_enable_source key_file "compass" build.use_compass priv.enable_compass).2 }

/-- The function `load_static_source_config`. -/
def load_static_source_config (build : BuildConfig) (key_file : GKeyFile)
    (priv : GClueConfigPrivate) : GClueConfigPrivate :=
  { priv with
    enable_static_source :=
      (load_enable_source key_file "static-source" build.use_static_source
        priv.enable_static_source).2 }

/-- The function `load_ip_source_config`. -/
def load_ip_source_config (build : BuildConfig) (key_file : GKeyFile)
    (priv : GClueConfigPrivate) : GClueConfigPrivate :=
  let priv := { priv with
    enable_ip_source :=
      (load_enable_source key_file "ip" build.use_ip_source priv.enable_ip_source).2 }
  let priv := { priv with
    ip_method := (load_string_value key_file "ip" "method" priv.ip_method).2 }
  let priv := { priv with ip_url := (load_string_value key_file "ip" "url" priv.ip_url).2 }
  { priv with
    ip_accuracy :=
      if g_key_file_has_key key_file "ip" "accuracy" then
        match g_key_file_get_double key_file "ip" "accuracy" with
        | some value => value
        | none => priv.ip_accuracy
      else priv.ip_accuracy }

/-- The function `load_config_file`.  The argument `loaded` is the outcome of
`g_key_file_load_from_file` on the path: `none` when it sets the error. -/
def load_config_file (build : BuildConfig) (priv : GClueConfigPrivate)
    (loaded : Option GKeyFile) : GClueConfigPrivate :=
  match loaded with
  | none => priv
  | some key_file =>
    let priv := load_agent_config key_file priv
    let priv := load_app_configs key_file priv
    let priv := load_wifi_config build key_file priv
    let priv := load_3g_config build key_file priv
    let priv := load_cdma_config build key_file priv
    let priv := load_modem_gps_config build key_file priv
    let priv := load_network_nmea_config build key_file priv
    let priv := load_compass_config build key_file priv
    let priv := load_static_source_config build key_file priv
    load_ip_source_config build key_file priv

/-! ## Initialisation -/

/-- The comparison function `sort_files`, on the two file names. -/
def sort_files (a b : String) : Int := g_strcmp0 (some a) (some b)

/-- An entry of the drop-in directory: the name `g_dir_read_name` returns and the
outcome of loading the file of that name. -/
abbrev DirEntry := String × Option GKeyFile

/-- The order `g_array_sort (files, sort_files)` establishes. -/
def files_le (a b : DirEntry) : Prop := sort_files a.1 b.1 ≤ 0

instance : DecidableRel files_le := fun a b => inferInstanceAs (Decidable (sort_files a.1 b.1 ≤ 0))

/-- GLib `g_array_sort` with `sort_files`, on the array `files`.  The names of the
entries of one directory are pairwise distinct, so the sorted array does not depend on
the sorting algorithm; insertion sort stands for it. -/
def g_array_sort (files : List DirEntry) : List DirEntry :=
  files.insertionSort files_le

/-- The first part of `gclue_config_init`: the defaults assigned before any file
is read; every other member of the freshly allocated instance is zero. -/
def gclue_config_init_defaults (build : BuildConfig) : GClueConfigPrivate :=
  { agents := []
    wifi_url := some build.default_wifi_url
    wifi_submit := false
    enable_nmea_source := true
    enable_3g_source := true
    enable_cdma_source := true
    enable_modem_gps_source := true
    enable_wifi_source := true
    enable_compass := true
    enable_static_source := true
    enable_ip_source := true
    wifi_submit_url := some build.default_wifi_submit_url
    wifi_submit_nick := some DEFAULT_WIFI_SUBMIT_NICK
    nmea_socket := none
    ip_method := none
    ip_url := none
    ip_accuracy := build.accuracy_unknown
    app_configs := [] }

/-- The files of the drop-in directory that `gclue_config_init` loads, in the
order it loads them; `dir` is `none` when `g_dir_open` fails. -/
def conf_d_files (dir : Option (List DirEntry)) : List DirEntry :=
  match dir with
  | none => []
  | some entries => g_array_sort (entries.filter (fun e => g_str_has_suffix e.1 ".conf"))

/-- The part of `gclue_config_init` up to the label `out`: the defaults, the base
file, then the drop-in files. -/
def gclue_config_init_load (build : BuildConfig) (base : Option GKeyFile)
    (dir : Option (List DirEntry)) : GClueConfigPrivate :=
  let priv := gclue_config_init_defaults build
  let priv := load_config_file build priv base
  (conf_d_files dir).foldl (fun priv e => load_config_file build priv e.2) priv

/-- The part of `gclue_config_init` after the label `out`: the consistency checks. -/
def gclue_config_init_out (priv : GClueConfigPrivate) : GClueConfigPrivate :=
  let priv :=
    if !string_present priv.wifi_url && (priv.enable_wifi_source || priv.enable_3g_source) then
      { priv with enable_wifi_source := false, enable_3g_source := false }
    else priv
  let priv :=
    if !string_present priv.wifi_submit_url && priv.wifi_submit then
      { priv with wifi_submit := false }
    else priv
  if priv.enable_ip_source && (!string_present priv.ip_method ||
      (g_strcmp0 priv.ip_method (some "ichnaea") != 0 &&
       g_strcmp0 priv.ip_method (some "gmaps") != 0 &&
       g_strcmp0 priv.ip_method (some "reallyfreegeoip") != 0)) then
    { priv with enable_ip_source := false, ip_method := none }
  else priv

/-- The function `gclue_config_init`, as a function of the build constants, the
outcome of loading the base file and the content of the drop-in directory. -/
def gclue_config_init (build : BuildConfig) (base : Option GKeyFile)
    (dir : Option (List DirEntry)) : GClueConfigPrivate :=
  gclue_config_init_out (gclue_config_init_load build base dir)

/-- The getter `gclue_config_get_enable_wifi_source`. -/
def gclue_config_get_enable_wifi_source (priv : GClueConfigPrivate) : Bool :=
  priv.enable_wifi_source

/-- The getter `gclue_config_get_enable_3g_source`. -/
def gclue_config_get_enable_3g_source (priv : GClueConfigPrivate) : Bool :=
  priv.enable_3g_source

/-- The getter `gclue_config_get_enable_ip_source`. -/
def gclue_config_get_enable_ip_source (priv : GClueConfigPrivate) : Bool :=
  priv.enable_ip_source

/-- The getter `gclue_config_get_wifi_url`. -/
def gclue_config_get_wifi_url (priv : GClueConfigPrivate) : Option String := priv.wifi_url

/-- The getter `gclue_config_get_ip_method`. -/
def gclue_config_get_ip_method (priv : GClueConfigPrivate) : Option String := priv.ip_method

/-- The getter `gclue_config_get_nmea_socket`. -/
def gclue_config_get_nmea_socket (priv : GClueConfigPrivate) : Option String :=
  priv.nmea_socket

/-- The getter `gclue_config_get_wifi_submit_nick`. -/
def gclue_config_get_wifi_submit_nick (priv : GClueConfigPrivate) : Option String :=
  priv.wifi_submit_nick

/-- The getter `gclue_config_get_wifi_submit_data`. -/
def gclue_config_get_wifi_submit_data (priv : GClueConfigPrivate) : Bool := priv.wifi_submit

/-- The getter `gclue_config_get_enable_modem_gps_source`. -/
def gclue_config_get_enable_modem_gps_source (priv : GClueConfigPrivate) : Bool :=
  priv.enable_modem_gps_source

/-- The getter `gclue_config_get_enable_cdma_source`. -/
def gclue_config_get_enable_cdma_source (priv : GClueConfigPrivate) : Bool :=
  priv.enable_cdma_source

/-- The getter `gclue_config_get_enable_nmea_source`. -/
def gclue_config_get_enable_nmea_source (priv : GClueConfigPrivate) : Bool :=
  priv.enable_nmea_source

/-- The getter `gclue_config_get_enable_compass`. -/
def gclue_config_get_enable_compass (priv : GClueConfigPrivate) : Bool := priv.enable_compass

/-- The getter `gclue_config_get_enable_static_source`. -/
def gclue_config_get_enable_static_source (priv : GClueConfigPrivate) : Bool :=
  priv.enable_static_source

/-- The getter `gclue_config_get_ip_url`. -/
def gclue_config_get_ip_url (priv : GClueConfigPrivate) : Option String := priv.ip_url

/-- The getter `gclue_config_get_ip_accuracy`. -/
def gclue_config_get_ip_accuracy (priv : GClueConfigPrivate) : ℚ := priv.ip_accuracy

/-- The setter `gclue_config_set_wifi_submit_nick`; `g_strdup` of `NULL` is `NULL`. -/
def gclue_config_set_wifi_submit_nick (priv : GClueConfigPrivate) (nick : Option String) :
    GClueConfigPrivate :=
  { priv with wifi_submit_nick := nick }

/-- The setter `gclue_config_set_wifi_submit_data`. -/
def gclue_config_set_wifi_submit_data (priv : GClueConfigPrivate) (submit : Bool) :
    GClueConfigPrivate :=
  { priv with wifi_submit := submit }

/-- The setter `gclue_config_set_nmea_socket`. -/
def gclue_config_set_nmea_socket (priv : GClueConfigPrivate) (nmea_socket : Option String) :
    GClueConfigPrivate :=
  { priv with nmea_socket := nmea_socket }

/-- The function `gclue_config_get_num_allowed_agents`. -/
def gclue_config_get_num_allowed_agents (priv : GClueConfigPrivate) : Nat :=
  priv.agents.length

/-! ## The public interface of the configuration store -/

/-- A call of one of the public functions of gclue-config.c, the ones that are not
static, on the singleton; the arguments are those given besides `config`. -/
inductive GClueConfigCall where
  | get_singleton
  | is_agent_allowed (desktop_id : Option String) (agent_info : GClueClientInfo)
  | get_num_allowed_agents
  | get_app_perm (desktop_id : Option String) (app_info : GClueClientInfo)
  | is_system_component (desktop_id : Option String)
  | get_nmea_socket
  | get_wifi_url
  | get_wifi_submit_url
  | get_wifi_submit_nick
  | set_wifi_submit_nick (nick : Option String)
  | get_wifi_submit_data
  | set_wifi_submit_data (submit : Bool)
  | get_enable_wifi_source
  | get_enable_3g_source
  | get_enable_modem_gps_source
  | get_enable_cdma_source
  | get_enable_nmea_source
  | set_nmea_socket (nmea_socket : Option String)
  | get_enable_compass
  | get_enable_static_source
  | get_enable_ip_source
  | get_ip_method
  | get_ip_url
  | get_ip_accuracy

/-- The private data of the singleton after a call of a public function, once
`gclue_config_init` has run: each of the three setters assigns one member, and the
body of every other public function assigns nothing through `config`
(`gclue_config_get_singleton` returns the instance it has already created). -/
def gclue_config_call (priv : GClueConfigPrivate) (call : GClueConfigCall) :
    GClueConfigPrivate :=
  match call with
  | .get_singleton => priv
  | .is_agent_allowed _ _ => priv
  | .get_num_allowed_agents => priv
  | .get_app_perm _ _ => priv
  | .is_system_component _ => priv
  | .get_nmea_socket => priv
  | .get_wifi_url => priv
  | .get_wifi_submit_url => priv
  | .get_wifi_submit_nick => priv
  | .set_wifi_submit_nick nick => gclue_config_set_wifi_submit_nick priv nick
  | .get_wifi_submit_data => priv
  | .set_wifi_submit_data submit => gclue_config_set_wifi_submit_data priv submit
  | .get_enable_wifi_source => priv
  | .get_enable_3g_source => priv
  | .get_enable_modem_gps_source => priv
  | .get_enable_cdma_source => priv
  | .get_enable_nmea_source => priv
  | .set_nmea_socket nmea_socket => gclue_config_set_nmea_socket priv nmea_socket
  | .get_enable_compass => priv
  | .get_enable_static_source => priv
  | .get_enable_ip_source => priv
  | .get_ip_method => priv
  | .get_ip_url => priv
  | .get_ip_accuracy => priv

/-- Whether the call is one of the three setters. -/
def GClueConfigCall.is_setter (call : GClueConfigCall) : Bool :=
  match call with
  | .set_wifi_submit_nick _ => true
  | .set_wifi_submit_data _ => true
  | .set_nmea_socket _ => true
  | _ => false

/-- The nickname given by the last call of `gclue_config_set_wifi_submit_nick` among
`calls`, and `before` when there is none. -/
def last_wifi_submit_nick (calls : List GClueConfigCall) (before : Option String) :
    Option String :=
  calls.foldl (fun value call =>
    match call with
    | .set_wifi_submit_nick nick => nick
    | _ => value) before

/-- The flag given by the last call of `gclue_config_set_wifi_submit_data` among
`calls`, and `before` when there is none. -/
def last_wifi_submit_data (calls : List GClueConfigCall) (before : Bool) : Bool :=
  calls.foldl (fun value call =>
    match call with
    | .set_wifi_submit_data submit => submit
    | _ => value) before

/-- The socket given by the last call of `gclue_config_set_nmea_socket` among `calls`,
and `before` when there is none. -/
def last_nmea_socket (calls : List GClueConfigCall) (before : Option String) :
    Option String :=
  calls.foldl (fun value call =>
    match call with
    | .set_nmea_socket nmea_socket => nmea_socket
    | _ => value) before

/-! ## Layering of the files -/

/-- The outcomes of the loads `gclue_config_init` performs, in the order it performs
them: the base file, then the drop-in files. -/
def config_files (base : Option GKeyFile) (dir : Option (List DirEntry)) :
    List (Option GKeyFile) :=
  base :: (conf_d_files dir).map Prod.snd

/-- The length test `load_wifi_config` applies to a submission nickname. -/
def nick_length_valid (nick : String) : Bool :=
  strlen nick != 1 && strlen nick ≤ 32

/-- The members that decide the enable flags when no file sets a key: the eight flags
are set, no IP method is stored and the Wi-Fi URL is present exactly when the built-in
default is. -/
def defaults_stand (build : BuildConfig) (priv : GClueConfigPrivate) : Prop :=
  priv.enable_nmea_source = true ∧ priv.enable_3g_source = true ∧
    priv.enable_cdma_source = true ∧ priv.enable_modem_gps_source = true ∧
    priv.enable_wifi_source = true ∧ priv.enable_compass = true ∧
    priv.enable_static_source = true ∧ priv.enable_ip_source = true ∧
    priv.ip_method = none ∧
    string_present priv.wifi_url = string_present (some build.default_wifi_url)

/-! ## Doubles and locations (`src/gclue-ip.c`)

The IP source computes with C `double`s.  A double is represented by the rational
it stands for, an infinity or a NaN; sums, products and quotients of finite values
are exact (rounding and overflow of finite results are left out, and the two zeros
are not distinguished: a zero divisor counts as `+0`).  Comparisons with a NaN are
false and the special values propagate as IEEE 754 prescribes. -/

/-- A C `double`. -/
inductive Double where
  | finite (value : ℚ)
  | infinity (negative : Bool)
  | nan
deriving DecidableEq

/-- The C comparison `a < b` on doubles. -/
def Double.lt : Double → Double → Bool
  | .finite a, .finite b => decide (a < b)
  | .finite _, .infinity negative => !negative
  | .infinity negative, .finite _ => negative
  | .infinity a, .infinity b => a && !b
  | _, _ => false

/-- The C comparison `a <= b` on doubles. -/
def Double.le : Double → Double → Bool
  | .finite a, .finite b => decide (a ≤ b)
  | .finite _, .infinity negative => !negative
  | .infinity negative, .finite _ => negative
  | .infinity a, .infinity b => a || !b
  | _, _ => false

/-- The C comparison `a > b` on doubles. -/
def Double.gt (a b : Double) : Bool := Double.lt b a

/-- The C division `a / b` on doubles. -/
def Double.div : Double → Double → Double
  | .finite a, .finite b =>
    if b = 0 then (if a = 0 then .nan else .infinity (decide (a < 0))) else .finite (a / b)
  | .finite _, .infinity _ => .finite 0
  | .infinity negative, .finite b => .infinity (negative != decide (b < 0))
  | _, _ => .nan

/-- The C product `a * b` on doubles. -/
def Double.mul : Double → Double → Double
  | .finite a, .finite b => .finite (a * b)
  | .finite a, .infinity negative =>
    if a = 0 then .nan else .infinity (negative != decide (a < 0))
  | .infinity negative, .finite b =>
    if b = 0 then .nan else .infinity (negative != decide (b < 0))
  | .infinity a, .infinity b => .infinity (a != b)
  | _, _ => .nan

/-- The libm `round`: the nearest integer, halves away from zero. -/
def Double.round : Double → Double
  | .finite a => .finite (if 0 ≤ a then (⌊a + 1 / 2⌋ : ℤ) else (⌈a - 1 / 2⌉ : ℤ))
  | d => d

/-- The conversion of an `int` to `double`. -/
def Double.of_int (i : Int) : Double := .finite i

/-- The outcome of evaluating a C expression whose behaviour may be undefined. -/
inductive CResult (α : Type) where
  | undefined
  | returns (value : α)
deriving DecidableEq

/-- Sequencing of evaluations: an undefined step makes the whole undefined. -/
def CResult.bind {α β : Type} (r : CResult α) (f : α → CResult β) : CResult β :=
  match r with
  | .undefined => .undefined
  | .returns value => f value

/-- The C expression `(int) floor (log10 (x))`.  It is defined for a finite positive
`x` only (`log10` of zero is an infinity and of a negative number a NaN, which do not
convert to `int`); the logarithm of a double lies between -324 and 309, so the
conversion itself is exact. -/
def floor_log10 (x : Double) : CResult Int :=
  match x with
  | .finite a => if 0 < a then .returns (Int.log 10 a) else .undefined
  | _ => .undefined

/-- The C assignment `base = pow (10, zeros)` to an `int`: the power truncated towards
zero, undefined when it exceeds `INT_MAX`. -/
def pow10_int (zeros : Int) : CResult Int :=
  if zeros < 0 then .returns 0
  else if zeros ≤ 9 then .returns (10 ^ zeros.toNat)
  else .undefined

/-- The function `round_to_1fig`. -/
def round_to_1fig (x : Double) : CResult Double :=
  (floor_log10 x).bind fun zeros =>
    (pow10_int zeros).bind fun base =>
      .returns (Double.mul (Double.round (Double.div x (Double.of_int base)))
        (Double.of_int base))

/-- The C expression `1 << n` on `int`: undefined when the result does not fit. -/
def shift_left_int (n : Nat) : CResult Int :=
  if n < 31 then .returns (2 ^ n) else .undefined

/-- The macro `GMAPS_SCALE`. -/
def GMAPS_SCALE : Double := .finite 10000000

/-- The macro `REALLYFREEGEOIP_ACCURACY`. -/
def REALLYFREEGEOIP_ACCURACY : Double := .finite 20000

/-- The location object `GClueLocation`, with the members the IP source sets. -/
structure GClueLocation where
  latitude : Double
  longitude : Double
  accuracy : Double
  description : Option String
deriving DecidableEq

/-- Modelled from the spec: the constructor `gclue_location_new` of
`gclue-location.c`, which is not among these sources; it yields the fix with the
coordinates, accuracy radius and description given. -/
def gclue_location_new (latitude longitude accuracy : Double) (description : Option String) :
    GClueLocation :=
  { latitude := latitude, longitude := longitude, accuracy := accuracy,
    description := description }

/-- Modelled from the spec: the setter `gclue_location_set_accuracy` of
`gclue-location.c`, which is not among these sources; it replaces the accuracy
radius of the fix. -/
def gclue_location_set_accuracy (location : GClueLocation) (accuracy : Double) :
    GClueLocation :=
  { location with accuracy := accuracy }

/-- Modelled from the spec: the setter `gclue_location_set_description` of
`gclue-location.c`, which is not among these sources; it replaces the description of
the fix. -/
def gclue_location_set_description (location : GClueLocation) (description : String) :
    GClueLocation :=
  { location with description := some description }

/-- The private data of `GClueIp` that the parsers read (`struct _GClueIpPrivate`). -/
structure GClueIpPrivate where
  accuracy : Double

/-- The sentinel `GCLUE_LOCATION_ACCURACY_UNKNOWN` as a double. -/
def accuracy_unknown (build : BuildConfig) : Double := .finite build.accuracy_unknown

/-- The function `ichnaea_parse_response`; `parsed` is what
`gclue_mozilla_parse_response` returns for the content. -/
def ichnaea_parse_response (build : BuildConfig) (ip : GClueIpPrivate)
    (parsed : Option GClueLocation) : Option GClueLocation :=
  match parsed with
  | none => none
  | some location =>
    let location := gclue_location_set_description location "GeoIP (ichnaea)"
    if ip.accuracy.gt (accuracy_unknown build) then
      some (gclue_location_set_accuracy location ip.accuracy)
    else some location

/-- The accuracy `gmaps_parse_response` derives from the zoom: the C expression
`round_to_1fig (zoom >= 1 ? GMAPS_SCALE / (1 << (zoom - 1)) : GMAPS_SCALE)`. -/
def gmaps_zoom_accuracy (zoom : Nat) : CResult Double :=
  if zoom ≥ 1 then
    (shift_left_int (zoom - 1)).bind fun shifted =>
      round_to_1fig (Double.div GMAPS_SCALE (Double.of_int shifted))
  else round_to_1fig GMAPS_SCALE

/-- The function `gmaps_parse_response`.  The argument `matched` is `none` when the
regular expression does not match the response, and otherwise the latitude,
longitude and zoom that `g_ascii_strtod` and `g_ascii_strtoull` read from the match;
`description` is the query data description of the web source. -/
def gmaps_parse_response (build : BuildConfig) (ip : GClueIpPrivate)
    (description : Option String) (matched : Option (Double × Double × Nat)) :
    CResult (Option GClueLocation) :=
  match matched with
  | none => .returns none
  | some (latitude, longitude, zoom) =>
    let accuracy : CResult Double :=
      if ip.accuracy.gt (accuracy_unknown build) then .returns ip.accuracy
      else gmaps_zoom_accuracy zoom
    accuracy.bind fun accuracy =>
      if latitude.le (.finite (-180)) || latitude.gt (.finite 180) ||
          longitude.gt (.finite 90) || longitude.lt (.finite (-90)) ||
          accuracy.gt GMAPS_SCALE || accuracy.lt (.finite 1) then
        .returns none
      else .returns (some (gclue_location_new latitude longitude accuracy description))

/-- The function `reallyfreegeoip_parse_response`.  The argument `parsed` is `none`
when `json_parser_load_from_data` fails, and otherwise the two doubles that
`json_object_get_double_member` returns for "latitude" and "longitude". -/
def reallyfreegeoip_parse_response (build : BuildConfig) (ip : GClueIpPrivate)
    (description : Option String) (parsed : Option (Double × Double)) :
    Option GClueLocation :=
  match parsed with
  | none => none
  | some (latitude, longitude) =>
    let accuracy :=
      if ip.accuracy.gt (accuracy_unknown build) then ip.accuracy
      else REALLYFREEGEOIP_ACCURACY
    if latitude.lt (.finite (-90)) || latitude.gt (.finite 90) ||
        longitude.le (.finite (-180)) || longitude.gt (.finite 180) then
      none
    else some (gclue_location_new latitude longitude accuracy description)

/-- The part of `gclue_ip_init` that copies the configured accuracy. -/
def gclue_ip_init_accuracy (config : GClueConfigPrivate) : GClueIpPrivate :=
  { accuracy := .finite (gclue_config_get_ip_accuracy config) }

/-- The accuracy radius in metres that `gmaps_parse_response` derives from each zoom
up to 24: ten thousand kilometres halved zoom - 1 times, to one significant figure. -/
def gmaps_accuracy_table : Nat → ℚ
  | 0 => 10000000
  | 1 => 10000000
  | 2 => 5000000
  | 3 => 3000000
  | 4 => 1000000
  | 5 => 600000
  | 6 => 300000
  | 7 => 200000
  | 8 => 80000
  | 9 => 40000
  | 10 => 20000
  | 11 => 10000
  | 12 => 5000
  | 13 => 2000
  | 14 => 1000
  | 15 => 600
  | 16 => 300
  | 17 => 200
  | 18 => 80
  | 19 => 40
  | 20 => 20
  | 21 => 10
  | 22 => 5
  | 23 => 2
  | 24 => 1
  | _ => 0

/-! ## The locate URL and the method dispatch of the IP source (gclue-ip.c) -/

/-- The macro `BEACONDB_URL`. -/
def BEACONDB_URL : String := "https://api.beacondb.net/v1/geolocate"

/-- The macro `GMAPS_URL`. -/
def GMAPS_URL : String := "https://www.google.com/maps"

/-- The macro `REALLYFREEGEOIP_URL`. -/
def REALLYFREEGEOIP_URL : String := "https://reallyfreegeoip.org/json/"

/-- The pair of class methods `create_query` and `parse_response` that
`gclue_ip_class_init` installs, named after the method. -/
inductive GClueIpMethod where
  | ichnaea
  | gmaps
  | reallyfreegeoip
  deriving DecidableEq, Repr

/-- The method dispatch of `gclue_ip_class_init`; `none` is the branch that ends
in `g_error ("Unknown IP method ...")`, which aborts the process. -/
def gclue_ip_class_init (config : GClueConfigPrivate) : Option GClueIpMethod :=
  let method := gclue_config_get_ip_method config
  if g_strcmp0 method (some "ichnaea") == 0 then some .ichnaea
  else if g_strcmp0 method (some "gmaps") == 0 then some .gmaps
  else if g_strcmp0 method (some "reallyfreegeoip") == 0 then some .reallyfreegeoip
  else none

/-- The part of `gclue_ip_init` that chooses the locate URL: the result is the
argument of `gclue_web_source_set_locate_url`, and `none` is the branch that ends in
`g_error ("Unknown IP method ...")`.  The C expression `a ? : b` is `a` when the
pointer `a` is not NULL and `b` otherwise. -/
def gclue_ip_init_locate_url (config : GClueConfigPrivate) : Option String :=
  let method := gclue_config_get_ip_method config
  let ip_url := gclue_config_get_ip_url config
  if g_strcmp0 method (some "ichnaea") == 0 then
    let wifi_url := gclue_config_get_wifi_url config
    some (match ip_url with
      | some url => url
      | none =>
        match wifi_url with
        | some url => url
        | none => BEACONDB_URL)
  else if g_strcmp0 method (some "gmaps") == 0 then
    some (match ip_url with
      | some url => url
      | none => GMAPS_URL)
  else if g_strcmp0 method (some "reallyfreegeoip") == 0 then
    some (match ip_url with
      | some url => url
      | none => REALLYFREEGEOIP_URL)
  else none

/-! ## Printing the configuration (gclue-config.c) -/

/-- The GLib function `g_strrstr` on the characters of the two strings: the offset of
the last occurrence of `needle` in `haystack`, `none` for NULL.  An empty needle is
found at the start of the haystack. -/
def g_strrstr (haystack needle : List Char) : Option Nat :=
  if needle.length = 0 then some 0
  else if haystack.length < needle.length then none
  else
    (List.range (haystack.length - needle.length + 1)).reverse.find?
      (fun p => needle.isPrefixOf (haystack.drop p))

/-- The libc function `strstr`: the offset of the first occurrence of `needle`. -/
def strstr (haystack needle : List Char) : Option Nat :=
  (List.range (haystack.length + 1)).find? (fun p => needle.isPrefixOf (haystack.drop p))

/-- The GLib function `g_string_replace` called with the limit 1 and a `find` that
is not empty: the first occurrence of `find` in `string`, searched from the start, is
replaced by `replace`; without an occurrence the string is unchanged. -/
def g_string_replace_1 (string find replace : List Char) : List Char :=
  match strstr string find with
  | none => string
  | some pos => string.take pos ++ replace ++ string.drop (pos + find.length)

/-- The function `redact_api_key`: `none` is the NULL result.  The pointer `match`
is the offset into `url`, `*(match - 1)` the character before it and `match + 4` the
rest of the string after the four characters of "key=". -/
def redact_api_key (url : Option String) : Option String :=
  if !string_present url then none
  else
    match url with
    | none => none
    | some url =>
      match g_strrstr url.data "key=".data with
      | none => some url
      | some m =>
        if m > 0 && (url.data.get? (m - 1) == some '?' || url.data.get? (m - 1) == some '&')
            && (url.data.get? (m + 4)).isSome then
          some (String.mk (g_string_replace_1 url.data (url.data.drop (m + 4)) "<redacted>".data))
        else some url

/-- The line of `gclue_config_print` for the IP URL: the text printed after
"IP URL: ". -/
def gclue_config_print_ip_url (priv : GClueConfigPrivate) : String :=
  if string_present priv.ip_url then
    match priv.ip_url with
    | some url => url
    | none => "(method default)"
  else "(method default)"

/-! ## The client library (libgeoclue/gclue-simple.c) -/

/-- Modelled from the spec: the enumerator `GCLUE_ACCURACY_LEVEL_NONE` of
`GClueAccuracyLevel`, declared in gclue-enums.h, which is not among the sources; its
value is that of None in the AccuracyLevel enumeration. -/
def GCLUE_ACCURACY_LEVEL_NONE : Nat := 0

/-- Modelled from the spec: the enumerator `GCLUE_ACCURACY_LEVEL_COUNTRY` of
gclue-enums.h, with the value of Country in the AccuracyLevel enumeration. -/
def GCLUE_ACCURACY_LEVEL_COUNTRY : Nat := 1

/-- Modelled from the spec: the enumerator `GCLUE_ACCURACY_LEVEL_CITY` of
gclue-enums.h, with the value of City in the AccuracyLevel enumeration. -/
def GCLUE_ACCURACY_LEVEL_CITY : Nat := 4

/-- Modelled from the spec: the enumerator `GCLUE_ACCURACY_LEVEL_NEIGHBORHOOD` of
gclue-enums.h, with the value of Neighborhood in the AccuracyLevel enumeration. -/
def GCLUE_ACCURACY_LEVEL_NEIGHBORHOOD : Nat := 5

/-- Modelled from the spec: the enumerator `GCLUE_ACCURACY_LEVEL_STREET` of
gclue-enums.h, with the value of Street in the AccuracyLevel enumeration. -/
def GCLUE_ACCURACY_LEVEL_STREET : Nat := 6

/-- Modelled from the spec: the enumerator `GCLUE_ACCURACY_LEVEL_EXACT` of
gclue-enums.h, with the value of Exact in the AccuracyLevel enumeration. -/
def GCLUE_ACCURACY_LEVEL_EXACT : Nat := 8

/-- Modelled from the spec: the client proxy generated from the Client interface,
which is not among the sources, reduced to the properties `DistanceThreshold` and
`TimeThreshold` (read/write) and `Location` (the path of the latest fix, absent when
the property is not known). -/
structure GClueClient where
  distance_threshold : Nat
  time_threshold : Nat
  location : Option String
  deriving DecidableEq, Repr

/-- Modelled from the spec: the generated setter `gclue_client_set_distance_threshold`
of the property `DistanceThreshold`. -/
def gclue_client_set_distance_threshold (client : GClueClient) (value : Nat) : GClueClient :=
  { client with distance_threshold := value }

/-- Modelled from the spec: the generated setter `gclue_client_set_time_threshold` of
the property `TimeThreshold`. -/
def gclue_client_set_time_threshold (client : GClueClient) (value : Nat) : GClueClient :=
  { client with time_threshold := value }

/-- Modelled from the spec: the generated getter `gclue_client_get_location` of the
property `Location`. -/
def gclue_client_get_location (client : GClueClient) : Option String := client.location

/-- A location proxy, known by the object path it was created for. -/
structure GClueLocationProxy where
  object_path : String
  deriving DecidableEq, Repr

/-- The members of `struct _GClueSimplePrivate` that the functions below read or
write; the `guint` thresholds are natural numbers below 2 ^ 32. -/
structure GClueSimplePrivate where
  desktop_id : Option String
  accuracy_level : Nat
  distance_threshold : Nat
  time_threshold : Nat
  client : Option GClueClient
  location : Option GClueLocationProxy
  deriving DecidableEq, Repr

/-- The function `gclue_simple_new_with_thresholds`: the private data of the instance
that `g_async_initable_new_async` constructs, each of the four properties stored by
`gclue_simple_set_property`, before the asynchronous initialisation runs. -/
def gclue_simple_new_with_thresholds (desktop_id : Option String) (accuracy_level : Nat)
    (time_threshold distance_threshold : Nat) : GClueSimplePrivate :=
  { desktop_id := desktop_id
    accuracy_level := accuracy_level
    distance_threshold := distance_threshold
    time_threshold := time_threshold
    client := none
    location := none }

/-- The function `on_location_updated`: the private data afterwards and the object
path passed to `gclue_location_proxy_new_for_bus`, `none` when it is not called. -/
def on_location_updated (priv : GClueSimplePrivate) (new_location : Option String) :
    GClueSimplePrivate × Option String :=
  match new_location with
  | none => (priv, none)
  | some path =>
    if g_strcmp0 (some path) (some "/") == 0 then (priv, none)
    else (priv, some path)

/-- The function `on_client_started`; `start_error` tells whether
`gclue_client_call_start_finish` set the error. -/
def on_client_started (priv : GClueSimplePrivate) (client : GClueClient)
    (start_error : Bool) : GClueSimplePrivate × Option String :=
  if start_error then (priv, none)
  else
    let location := gclue_client_get_location client
    on_location_updated priv location

/-- The function `on_client_created`, up to the call of `gclue_client_call_start`;
`created` is the outcome of `gclue_client_proxy_create_full_finish`, `none` when it
sets the error. -/
def on_client_created (priv : GClueSimplePrivate) (created : Option GClueClient) :
    GClueSimplePrivate :=
  match created with
  | none => { priv with client := none }
  | some client =>
    let client :=
      if priv.distance_threshold != 0 then
        gclue_client_set_distance_threshold client priv.distance_threshold
      else client
    let client :=
      if priv.time_threshold != 0 then
        gclue_client_set_time_threshold client priv.time_threshold
      else client
    { priv with client := some client }

/-- The function `should_use_portal`.  The static variable `use_portal` is passed in
and returned (`none` is NULL); `flatpak_info_exists` is the outcome of `g_file_test`
on "/.flatpak-info" and `gtk_use_portal` that of `g_getenv ("GTK_USE_PORTAL")`.  The
result compares the first character of the string with the digit one. -/
def should_use_portal (use_portal : Option String) (flatpak_info_exists : Bool)
    (gtk_use_portal : Option String) : Bool × Option String :=
  let use_portal : String :=
    match use_portal with
    | some value => value
    | none =>
      if flatpak_info_exists then "1"
      else
        match gtk_use_portal with
        | some value => value
        | none => ""
  (use_portal.data.head? == some '1', some use_portal)

/-- The two ways `gclue_simple_init_async` continues: the portal proxy, finished in
`on_portal_created`, or the client proxy on the system bus, finished in
`on_client_created`. -/
inductive GClueSimpleRoute where
  | portal
  | direct_bus
  deriving DecidableEq, Repr

/-- The function `gclue_simple_init_async`: the route taken and the static variable
of `should_use_portal` afterwards. -/
def gclue_simple_init_async (use_portal : Option String) (flatpak_info_exists : Bool)
    (gtk_use_portal : Option String) : GClueSimpleRoute × Option String :=
  let r := should_use_portal use_portal flatpak_info_exists gtk_use_portal
  if r.1 then (.portal, r.2) else (.direct_bus, r.2)

/-- The function `accuracy_level_to_portal`; `none` is the default branch of the
switch, `g_assert_not_reached ()`. -/
def accuracy_level_to_portal (level : Nat) : Option Nat :=
  if level = GCLUE_ACCURACY_LEVEL_NONE then some 0
  else if level = GCLUE_ACCURACY_LEVEL_COUNTRY then some 1
  else if level = GCLUE_ACCURACY_LEVEL_CITY then some 2
  else if level = GCLUE_ACCURACY_LEVEL_NEIGHBORHOOD then some 3
  else if level = GCLUE_ACCURACY_LEVEL_STREET then some 4
  else if level = GCLUE_ACCURACY_LEVEL_EXACT then some 5
  else none

/-- The options that `on_portal_created` passes to the portal call `CreateSession`. -/
structure XdpSessionOptions where
  session_handle_token : String
  distance_threshold : Nat
  time_threshold : Nat
  accuracy : Nat
  deriving DecidableEq, Repr

/-- The function `on_portal_created`: the options of the `CreateSession` call, `none`
when the call is not made, because `xdp_location_proxy_new_for_bus_finish` set the
error or because `accuracy_level_to_portal` reached its assertion.  The session token
is the string made from the random number. -/
def on_portal_created (priv : GClueSimplePrivate) (portal_error : Bool)
    (session_token : String) : Option XdpSessionOptions :=
  if portal_error then none
  else
    match accuracy_level_to_portal priv.accuracy_level with
    | none => none
    | some accuracy =>
      some { session_handle_token := session_token
             distance_threshold := 0
             time_threshold := 0
             accuracy := accuracy }

/-! ## The accuracy level the IP source advertises (gclue-ip.c) -/

/-- The function `gclue_ip_get_available_accuracy_level`, as a function of
`net_available`; the web source argument is not used. -/
def gclue_ip_get_available_accuracy_level (net_available : Bool) : Nat :=
  if !net_available then GCLUE_ACCURACY_LEVEL_NONE
  else GCLUE_ACCURACY_LEVEL_CITY

/-! ## Predicates used in the statements -/

/-- The invariant of the app config list: the ids of the entries are pairwise distinct
and none of them is the name of a section that `load_app_configs` skips. -/
def app_configs_invariant (app_configs : List AppConfig) : Prop :=
  (app_configs.map AppConfig.id).Nodup ∧ ∀ c ∈ app_configs, c.id ∉ known_groups

/-- The six enumerators of `GClueAccuracyLevel`, in increasing order. -/
def accuracy_levels : List Nat :=
  [GCLUE_ACCURACY_LEVEL_NONE, GCLUE_ACCURACY_LEVEL_COUNTRY, GCLUE_ACCURACY_LEVEL_CITY,
   GCLUE_ACCURACY_LEVEL_NEIGHBORHOOD, GCLUE_ACCURACY_LEVEL_STREET, GCLUE_ACCURACY_LEVEL_EXACT]

/-! ## Example inputs -/

/-- A raw value that is a well-formed boolean. -/
def KeyValue.boolean (b : Bool) : KeyValue :=
  { as_boolean := some b
    as_string := some (if b then "true" else "false")
    as_string_list := some [if b then "true" else "false"]
    as_integer_list := none
    as_double := none }

/-- A raw value that is a plain string, neither a boolean nor a number. -/
def KeyValue.string (s : String) : KeyValue :=
  { as_boolean := none
    as_string := some s
    as_string_list := some (if s = "" then [] else [s])
    as_integer_list := if s = "" then some [] else none
    as_double := none }

/-- A raw value that is a list of integers. -/
def KeyValue.integers (raw : String) (l : List Int) : KeyValue :=
  { as_boolean := none
    as_string := some raw
    as_string_list := some (l.map toString)
    as_integer_list := some l
    as_double := none }

/-- Build constants with every source compiled in. -/
def build_all : BuildConfig :=
  { use_wifi_source := true
    use_3g_source := true
    use_cdma_source := true
    use_modem_gps_source := true
    use_nmea_source := true
    use_compass := true
    use_static_source := true
    use_ip_source := true
    default_wifi_url := "https://api.beacondb.net/v1/geolocate"
    default_wifi_submit_url := "https://api.beacondb.net/v2/geosubmit"
    accuracy_unknown := -1 }

/-- An application list with one allowed app restricted to the uids 1000 and 1001. -/
def priv_restricted : GClueConfigPrivate :=
  { gclue_config_init_defaults build_all with
    app_configs := [{ id := "org.example.Maps", allowed := true, system := false,
                      users := [1000, 1001] }] }

/-- An application list with one denied system app that lists the caller's uid. -/
def priv_denied : GClueConfigPrivate :=
  { gclue_config_init_defaults build_all with
    app_configs := [{ id := "org.example.Tracker", allowed := false, system := true,
                      users := [1000] }] }

/-- A key file whose only section names an app and sets `system` and `users` but not
`allowed`. -/
def key_file_no_allowed : GKeyFile :=
  { groups := [("org.example.Maps",
      [("system", KeyValue.boolean false), ("users", KeyValue.string "")])] }

/-- A key file whose only section names an app and sets `allowed` and `system` but has
no `users` key. -/
def key_file_no_users : GKeyFile :=
  { groups := [("org.example.Maps",
      [("allowed", KeyValue.boolean true), ("system", KeyValue.boolean true)])] }

/-- A key file whose only section names an app and sets `allowed`, `system` and an
empty `users` list. -/
def key_file_all_users : GKeyFile :=
  { groups := [("org.example.Maps",
      [("allowed", KeyValue.boolean true), ("system", KeyValue.boolean true),
       ("users", KeyValue.string "")])] }

/-- A later key file that sets only `allowed` for an app. -/
def key_file_only_allowed : GKeyFile :=
  { groups := [("org.example.Tracker", [("allowed", KeyValue.boolean true)])] }

/-- A base file that switches the Wi-Fi source off and sets an empty locate URL, so
that only the 3G source is still enabled when the checks run. -/
def key_file_empty_wifi_url : GKeyFile :=
  { groups := [("wifi", [("enable", KeyValue.boolean false), ("url", KeyValue.string "")])] }

/-- A base file that sets an empty Wi-Fi locate URL and switches the 3G source off. -/
def key_file_3g_off : GKeyFile :=
  { groups := [("wifi", [("url", KeyValue.string "")]),
               ("3g", [("enable", KeyValue.boolean false)])] }

/-- Build constants with every source but CDMA compiled in. -/
def build_without_cdma : BuildConfig :=
  { build_all with use_cdma_source := false }

/-- A key file without any group. -/
def key_file_empty : GKeyFile := { groups := [] }

/-- A key file that sets only the submission nickname. -/
def key_file_nick (nick : String) : GKeyFile :=
  { groups := [("wifi", [("submission-nick", KeyValue.string nick)])] }

/-- An application list with a system app that is denied and a plain app that is
allowed. -/
def priv_two_apps : GClueConfigPrivate :=
  { gclue_config_init_defaults build_all with
    app_configs :=
      [{ id := "org.example.Tracker", allowed := false, system := true, users := [1000] },
       { id := "org.example.Maps", allowed := true, system := false, users := [] }] }

/-- The private data of the IP source when the configuration sets no key. -/
def ip_default : GClueIpPrivate :=
  gclue_ip_init_accuracy (gclue_config_init build_all (some key_file_empty) none)

/-- A fix as the Ichnaea service may report it, with an accuracy radius of 5000 m. -/
def location_reported : GClueLocation :=
  { latitude := .finite 48, longitude := .finite 2, accuracy := .finite 5000,
    description := none }

/-- A base file that chooses the ichnaea method and sets an empty `ip/url`. -/
def key_file_ip_empty_url : GKeyFile :=
  { groups := [("ip", [("method", KeyValue.string "ichnaea"), ("url", KeyValue.string "")])] }

/-- A base file that chooses the gmaps method and sets no URL. -/
def key_file_ip_gmaps : GKeyFile :=
  { groups := [("ip", [("method", KeyValue.string "gmaps")])] }

/-- The private data of a client-library instance asked for exact accuracy, a time
threshold of 10 s and a distance threshold of 100 m. -/
def simple_with_thresholds : GClueSimplePrivate :=
  gclue_simple_new_with_thresholds (some "org.example.Maps") GCLUE_ACCURACY_LEVEL_EXACT 10 100

/-- A client proxy as the service hands it out: both thresholds zero, no fix yet. -/
def client_fresh : GClueClient :=
  { distance_threshold := 0, time_threshold := 0, location := some "/" }

/-- The object path of a fix, as the service names it. -/
def location_path : String := "/org/freedesktop/GeoClue2/Client/1/Location/0"

/-- A raw value that is a number. -/
def KeyValue.number (raw : String) (value : ℚ) : KeyValue :=
  { as_boolean := none
    as_string := some raw
    as_string_list := some [raw]
    as_integer_list := none
    as_double := some value }

/-- A base file that chooses the gmaps method and configures an accuracy of 500 m. -/
def key_file_ip_accuracy : GKeyFile :=
  { groups := [("ip", [("method", KeyValue.string "gmaps"),
                       ("accuracy", KeyValue.number "500" 500)])] }

/-- The private data of the IP source when the configuration sets an accuracy. -/
def ip_configured : GClueIpPrivate :=
  gclue_ip_init_accuracy (gclue_config_init build_all (some key_file_ip_accuracy) none)

/-- A sequence of calls on the configuration: two getters around one setter. -/
def calls_example : List GClueConfigCall :=
  [.get_wifi_url, .set_nmea_socket (some "/run/gps.sock"),
   .get_app_perm (some "org.example.Maps") { user_id := 1000 }]

/-! ## Lemmas on C strings and on the search loop -/

theorem char_eq_of_toNat_eq {a b : Char} (h : a.toNat = b.toNat) : a = b := by
  apply Char.eq_of_val_eq
  cases ha : a.val with
  | mk x =>
    cases hb : b.val with
    | mk y =>
      have hx : a.toNat = x.toNat := by simp [Char.toNat, UInt32.toNat, ha]
      have hy : b.toNat = y.toNat := by simp [Char.toNat, UInt32.toNat, hb]
      have hxy : x = y := BitVec.eq_of_toNat_eq (by omega)
      rw [hxy]

theorem strcmp_chars_eq_zero (a b : List Char) : strcmp_chars a b = 0 ↔ a = b := by
  induction a generalizing b with
  | nil => cases b <;> simp [strcmp_chars]
  | cons x xs ih =>
    cases b with
    | nil => simp [strcmp_chars]
    | cons y ys =>
      simp only [strcmp_chars]
      by_cases h1 : x.toNat < y.toNat
      · have hne : x ≠ y := fun h => by subst h; omega
        simp [h1, hne]
      · by_cases h2 : y.toNat < x.toNat
        · have hne : x ≠ y := fun h => by subst h; omega
          simp [h1, h2, hne]
        · have hxy : x = y := char_eq_of_toNat_eq (by omega)
          simp [h1, h2, hxy, ih]

theorem strcmp_eq_zero (a b : String) : strcmp a b = 0 ↔ a = b := by
  unfold strcmp
  rw [strcmp_chars_eq_zero]
  constructor
  · intro h
    cases a; cases b; simp_all
  · intro h; rw [h]

theorem find_app_config_eq_none (app_configs : List AppConfig) (id : String) :
    find_app_config app_configs id = none ↔ ∀ c ∈ app_configs, c.id ≠ id := by
  simp [find_app_config, strcmp_eq_zero]

theorem find_app_config_some_id {app_configs : List AppConfig} {id : String} {c : AppConfig}
    (h : find_app_config app_configs id = some c) : c.id = id ∧ c ∈ app_configs := by
  unfold find_app_config at h
  have h1 := List.find?_some h
  have h2 := List.mem_of_find?_eq_some h
  simp only [beq_iff_eq, strcmp_eq_zero] at h1
  exact ⟨h1, h2⟩

theorem find_app_config_append (pre post : List AppConfig) (c : AppConfig) (id : String)
    (hid : c.id = id) (hpre : ∀ x ∈ pre, x.id ≠ id) :
    find_app_config (pre ++ c :: post) id = some c := by
  induction pre with
  | nil => simp [find_app_config, strcmp_eq_zero, hid]
  | cons x xs ih =>
    have hx : x.id ≠ id := hpre x (List.mem_cons_self _ _)
    have hxs : ∀ y ∈ xs, y.id ≠ id := fun y hy => hpre y (List.mem_cons_of_mem _ hy)
    have hb : (strcmp x.id id == 0) = false := by simp [strcmp_eq_zero, hx]
    have := ih hxs
    simp only [find_app_config] at this ⊢
    simp [List.find?_cons, hb, this]

/-- With pairwise distinct ids, the search loop finds every entry of the list under
its own id. -/
theorem find_app_config_of_mem (app_configs : List AppConfig) (c : AppConfig)
    (hnodup : (app_configs.map AppConfig.id).Nodup) (hmem : c ∈ app_configs) :
    find_app_config app_configs c.id = some c := by
  induction app_configs with
  | nil => cases hmem
  | cons x xs ih =>
    simp only [List.map_cons, List.nodup_cons, List.mem_map, not_exists, not_and] at hnodup
    rcases List.mem_cons.mp hmem with h | h
    · subst h
      simp [find_app_config, strcmp_eq_zero]
    · have hne : x.id ≠ c.id := fun he => hnodup.1 c h he.symm
      have hb : (strcmp x.id c.id == 0) = false := by simp [strcmp_eq_zero, hne]
      have := ih hnodup.2 h
      simp only [find_app_config] at this ⊢
      simp [List.find?_cons, hb, this]

theorem int_to_guint64_eq_uid (u : Int) (n : Nat) (hlo : -2 ^ 31 ≤ u) (hhi : u < 2 ^ 31)
    (hn : n < 2 ^ 32) : int_to_guint64 u = n % 2 ^ 64 ↔ u = (n : Int) := by
  unfold int_to_guint64
  omega

/-! ## Application permissions -/

/-- C1. For an app whose config entry has `allowed = true`, `gclue_config_get_app_perm`
returns Allowed when the entry's users list is empty or contains the caller's uid (as
a number), and Disallowed otherwise; the listed ids are `gint` values and the uid is
a 32-bit bus uid. -/
theorem get_app_perm_allowed_entry (priv : GClueConfigPrivate) (desktop_id : String)
    (app_info : GClueClientInfo) (c : AppConfig)
    (hentry : find_app_config priv.app_configs desktop_id = some c)
    (hallowed : c.allowed = true)
    (hgint : ∀ u ∈ c.users, -2 ^ 31 ≤ u ∧ u < 2 ^ 31)
    (huid : gclue_client_info_get_user_id app_info < 2 ^ 32) :
    gclue_config_get_app_perm priv (some desktop_id) app_info =
      if c.users = [] ∨ (gclue_client_info_get_user_id app_info : Int) ∈ c.users then
        GCLUE_APP_PERM_ALLOWED
      else GCLUE_APP_PERM_DISALLOWED := by
  simp only [gclue_config_get_app_perm, hentry, hallowed]
  by_cases hempty : c.users = []
  · simp [hempty]
  · have hany : (c.users.any fun user =>
          int_to_guint64 user == gclue_client_info_get_user_id app_info % 2 ^ 64) = true ↔
        (gclue_client_info_get_user_id app_info : Int) ∈ c.users := by
      rw [List.any_eq_true]
      constructor
      · rintro ⟨u, hu, he⟩
        have hr := hgint u hu
        have := (int_to_guint64_eq_uid u _ hr.1 hr.2 huid).mp (by simpa using he)
        rw [← this]; exact hu
      · intro hu
        have hr := hgint _ hu
        exact ⟨_, hu, by simpa using (int_to_guint64_eq_uid _ _ hr.1 hr.2 huid).mpr rfl⟩
    by_cases hin : (gclue_client_info_get_user_id app_info : Int) ∈ c.users
    · have ht := hany.mpr hin
      simp [hempty, hin]
      simpa using ht
    · have hf : (c.users.any fun user =>
          int_to_guint64 user == gclue_client_info_get_user_id app_info % 2 ^ 64) = false := by
        rw [Bool.eq_false_iff]; exact fun h => hin (hany.mp h)
      simp [hempty, hin]
      simpa using hf

theorem get_app_perm_allowed_entry_witness :
    gclue_config_get_app_perm priv_restricted (some "org.example.Maps") { user_id := 1001 } =
        GCLUE_APP_PERM_ALLOWED ∧
      gclue_config_get_app_perm priv_restricted (some "org.example.Maps") { user_id := 0 } =
        GCLUE_APP_PERM_DISALLOWED := by
  constructor
  · rw [get_app_perm_allowed_entry priv_restricted "org.example.Maps" { user_id := 1001 }
      { id := "org.example.Maps", allowed := true, system := false, users := [1000, 1001] }
      (by decide) rfl (by decide) (by decide)]
    decide
  · rw [get_app_perm_allowed_entry priv_restricted "org.example.Maps" { user_id := 0 }
      { id := "org.example.Maps", allowed := true, system := false, users := [1000, 1001] }
      (by decide) rfl (by decide) (by decide)]
    decide

/-- C2. For an app whose config entry has `allowed = false`,
`gclue_config_get_app_perm` returns Disallowed for every caller, whatever the users
list and the system flag of the entry are. -/
theorem get_app_perm_disallowed_entry (priv : GClueConfigPrivate) (desktop_id : String)
    (app_info : GClueClientInfo) (c : AppConfig)
    (hentry : find_app_config priv.app_configs desktop_id = some c)
    (hallowed : c.allowed = false) :
    gclue_config_get_app_perm priv (some desktop_id) app_info = GCLUE_APP_PERM_DISALLOWED := by
  simp [gclue_config_get_app_perm, hentry, hallowed]

theorem get_app_perm_disallowed_entry_witness :
    gclue_config_get_app_perm priv_denied (some "org.example.Tracker") { user_id := 1000 } =
      GCLUE_APP_PERM_DISALLOWED :=
  get_app_perm_disallowed_entry priv_denied "org.example.Tracker" { user_id := 1000 }
    { id := "org.example.Tracker", allowed := false, system := true, users := [1000] }
    (by decide) rfl

/-- C3. For a desktop id that no app config entry carries,
`gclue_config_get_app_perm` returns AskAgent for every caller. -/
theorem get_app_perm_unknown_app (priv : GClueConfigPrivate) (desktop_id : String)
    (app_info : GClueClientInfo)
    (hnone : ∀ c ∈ priv.app_configs, c.id ≠ desktop_id) :
    gclue_config_get_app_perm priv (some desktop_id) app_info = GCLUE_APP_PERM_ASK_AGENT := by
  have h := (find_app_config_eq_none priv.app_configs desktop_id).mpr hnone
  simp [gclue_config_get_app_perm, h]

theorem get_app_perm_unknown_app_witness :
    gclue_config_get_app_perm priv_denied (some "org.example.Maps") { user_id := 1000 } =
      GCLUE_APP_PERM_ASK_AGENT :=
  get_app_perm_unknown_app priv_denied "org.example.Maps" { user_id := 1000 } (by decide)

/-! ## Agents -/

/-- C4. The function `gclue_config_is_agent_allowed` returns TRUE exactly when the
desktop id is one of the entries of the agent whitelist; it is FALSE for every
desktop id when the whitelist is empty, and its result is the same for every
`agent_info`. -/
theorem is_agent_allowed_iff_whitelisted (priv : GClueConfigPrivate)
    (desktop_id : Option String) (agent_info other_info : GClueClientInfo) :
    (gclue_config_is_agent_allowed priv desktop_id agent_info = true ↔
        ∃ id, desktop_id = some id ∧ id ∈ priv.agents) ∧
      gclue_config_is_agent_allowed { priv with agents := [] } desktop_id agent_info = false ∧
      gclue_config_is_agent_allowed priv desktop_id agent_info =
        gclue_config_is_agent_allowed priv desktop_id other_info := by
  refine ⟨?_, ?_, rfl⟩
  · cases desktop_id with
    | none => simp [gclue_config_is_agent_allowed, g_strcmp0]
    | some id => simp [gclue_config_is_agent_allowed, g_strcmp0, strcmp_eq_zero]
  · simp [gclue_config_is_agent_allowed]

/-! ## Application sections of a key file -/

/-- C5. A section that names an app without an existing entry and has no valid
`allowed` key leaves the list of app config entries exactly as it was. -/
theorem load_app_config_group_without_allowed (key_file : GKeyFile)
    (app_configs : List AppConfig) (group : String)
    (hnew : ∀ c ∈ app_configs, c.id ≠ group)
    (hallowed : g_key_file_get_boolean key_file group "allowed" = none) :
    load_app_config_group key_file app_configs group = app_configs := by
  have h := (find_app_config_eq_none app_configs group).mpr hnew
  unfold load_app_config_group
  split
  · rfl
  · simp [h, hallowed]

theorem load_app_config_group_without_allowed_witness :
    load_app_config_group key_file_no_allowed priv_denied.app_configs "org.example.Maps" =
      priv_denied.app_configs :=
  load_app_config_group_without_allowed key_file_no_allowed priv_denied.app_configs
    "org.example.Maps" (by decide) (by decide)

theorem known_groups_any (group : String) :
    (known_groups.any fun known => strcmp group known == 0) = true ↔ group ∈ known_groups := by
  simp [List.any_eq_true, strcmp_eq_zero]

theorem update_app_config_append (pre post : List AppConfig) (c : AppConfig) (id : String)
    (f : AppConfig → AppConfig) (hid : c.id = id) (hpre : ∀ x ∈ pre, x.id ≠ id) :
    update_app_config (pre ++ c :: post) id f = pre ++ f c :: post := by
  induction pre with
  | nil => simp [update_app_config, strcmp_eq_zero, hid]
  | cons x xs ih =>
    have hx : x.id ≠ id := hpre x (List.mem_cons_self _ _)
    have hxs : ∀ y ∈ xs, y.id ≠ id := fun y hy => hpre y (List.mem_cons_of_mem _ hy)
    simp [update_app_config, strcmp_eq_zero, hx, ih hxs]

theorem overwrite_app_config_eq (allowed system : Option Bool) (users : Option (List Int))
    (c : AppConfig) :
    overwrite_app_config allowed system users c =
      { id := c.id
        allowed := allowed.getD c.allowed
        system := system.getD c.system
        users := users.getD c.users } := by
  cases allowed <;> cases system <;> cases users <;> rfl

/-- C6, as stated, fails: a base file whose section for a new app sets `allowed` =
true and `system` but has no `users` key creates no entry, and the app is referred to
the agent instead of being allowed. -/
theorem app_section_without_users_counterexample :
    g_key_file_get_boolean key_file_no_users "org.example.Maps" "allowed" = some true ∧
      g_key_file_get_boolean key_file_no_users "org.example.Maps" "system" = some true ∧
      g_key_file_has_key key_file_no_users "org.example.Maps" "users" = false ∧
      (gclue_config_init build_all (some key_file_no_users) none).app_configs = [] ∧
      gclue_config_get_app_perm (gclue_config_init build_all (some key_file_no_users) none)
        (some "org.example.Maps") { user_id := 1000 } = GCLUE_APP_PERM_ASK_AGENT := by
  decide

/-- C6, amended. A section for a not yet configured app with `allowed` = true and a
valid `system` key is rejected when it has no valid `users` key, and accepted with the
listed users otherwise; with an empty `users` list the app is then Allowed for every
caller. -/
theorem load_app_config_group_new_app (key_file : GKeyFile) (app_configs : List AppConfig)
    (group : String) (system : Bool)
    (hknown : group ∉ known_groups)
    (hnew : ∀ c ∈ app_configs, c.id ≠ group)
    (hallowed : g_key_file_get_boolean key_file group "allowed" = some true)
    (hsystem : g_key_file_get_boolean key_file group "system" = some system) :
    match g_key_file_get_integer_list key_file group "users" with
    | none => load_app_config_group key_file app_configs group = app_configs
    | some [] =>
      load_app_config_group key_file app_configs group =
          { id := group, allowed := true, system := system, users := [] } :: app_configs ∧
        ∀ (priv : GClueConfigPrivate) (app_info : GClueClientInfo),
          gclue_config_get_app_perm
            { priv with app_configs := load_app_config_group key_file app_configs group }
            (some group) app_info = GCLUE_APP_PERM_ALLOWED
    | some (user :: users) =>
      load_app_config_group key_file app_configs group =
        { id := group, allowed := true, system := system, users := user :: users } ::
          app_configs := by
  have hfind := (find_app_config_eq_none app_configs group).mpr hnew
  have hk : (known_groups.any fun known => strcmp group known == 0) = false := by
    rw [Bool.eq_false_iff]; exact fun h => hknown ((known_groups_any group).mp h)
  have hload : ∀ users, g_key_file_get_integer_list key_file group "users" = some users →
      load_app_config_group key_file app_configs group =
        { id := group, allowed := true, system := system, users := users } :: app_configs := by
    intro users hu
    simp [load_app_config_group, hk, hfind, hallowed, hsystem, hu, overwrite_app_config_eq]
  cases hu : g_key_file_get_integer_list key_file group "users" with
  | none => simp [load_app_config_group, hk, hfind, hallowed, hsystem, hu]
  | some users =>
    cases users with
    | nil =>
      refine ⟨hload [] hu, fun priv app_info => ?_⟩
      rw [hload [] hu]
      simp [gclue_config_get_app_perm, find_app_config, strcmp_eq_zero]
    | cons user users => exact hload _ hu

theorem load_app_config_group_new_app_witness :
    load_app_config_group key_file_all_users [] "org.example.Maps" =
        [{ id := "org.example.Maps", allowed := true, system := true, users := [] }] ∧
      ∀ (priv : GClueConfigPrivate) (app_info : GClueClientInfo),
        gclue_config_get_app_perm
          { priv with
            app_configs := load_app_config_group key_file_all_users [] "org.example.Maps" }
          (some "org.example.Maps") app_info = GCLUE_APP_PERM_ALLOWED :=
  load_app_config_group_new_app key_file_all_users [] "org.example.Maps" true
    (by decide) (by decide) (by decide) (by decide)

/-- C7. A section for an app that already has an entry replaces, in that entry, exactly
the fields among `allowed`, `system` and `users` whose keys are valid in the file; the
id, the other fields and all other entries are as before, and no entry is added. -/
theorem load_app_config_group_overwrite (key_file : GKeyFile) (pre post : List AppConfig)
    (c : AppConfig) (group : String)
    (hknown : group ∉ known_groups)
    (hid : c.id = group)
    (hpre : ∀ x ∈ pre, x.id ≠ group) :
    load_app_config_group key_file (pre ++ c :: post) group =
      pre ++
        { id := c.id
          allowed := (g_key_file_get_boolean key_file group "allowed").getD c.allowed
          system := (g_key_file_get_boolean key_file group "system").getD c.system
          users := (g_key_file_get_integer_list key_file group "users").getD c.users } ::
        post := by
  have hfind := find_app_config_append pre post c group hid hpre
  have hk : (known_groups.any fun known => strcmp group known == 0) = false := by
    rw [Bool.eq_false_iff]; exact fun h => hknown ((known_groups_any group).mp h)
  simp [load_app_config_group, hk, hfind, update_app_config_append pre post c group _ hid hpre,
    overwrite_app_config_eq]

theorem load_app_config_group_overwrite_witness :
    load_app_config_group key_file_only_allowed
        ([{ id := "org.example.Maps", allowed := true, system := false, users := [] }] ++
          { id := "org.example.Tracker", allowed := false, system := true, users := [1000] } ::
          []) "org.example.Tracker" =
      [{ id := "org.example.Maps", allowed := true, system := false, users := [] },
       { id := "org.example.Tracker", allowed := true, system := true, users := [1000] }] :=
  load_app_config_group_overwrite key_file_only_allowed
    [{ id := "org.example.Maps", allowed := true, system := false, users := [] }] []
    { id := "org.example.Tracker", allowed := false, system := true, users := [1000] }
    "org.example.Tracker" (by decide) rfl (by decide)

/-! ## The consistency checks at the end of initialisation -/

theorem string_present_eq_false (str : Option String) :
    string_present str = false ↔ str = none ∨ str = some "" := by
  cases str with
  | none => simp [string_present]
  | some s => simp [string_present]

theorem gclue_config_init_out_wifi_url (priv : GClueConfigPrivate) :
    (gclue_config_init_out priv).wifi_url = priv.wifi_url := by
  unfold gclue_config_init_out
  simp only []
  split_ifs <;> rfl

theorem gclue_config_init_out_wifi_3g (priv : GClueConfigPrivate)
    (h : string_present priv.wifi_url = false) :
    (gclue_config_init_out priv).enable_wifi_source = false ∧
      (gclue_config_init_out priv).enable_3g_source = false := by
  unfold gclue_config_init_out
  simp only [h]
  cases hw : priv.enable_wifi_source <;> cases hg : priv.enable_3g_source <;>
    simp <;> split_ifs <;> simp [hw, hg]

theorem ip_method_check (m : Option String) :
    (!string_present m ||
      (g_strcmp0 m (some "ichnaea") != 0 && g_strcmp0 m (some "gmaps") != 0 &&
        g_strcmp0 m (some "reallyfreegeoip") != 0)) =
      !decide (m ∈ [some "ichnaea", some "gmaps", some "reallyfreegeoip"]) := by
  cases m with
  | none => decide
  | some s =>
    by_cases h1 : s = "ichnaea"
    · subst h1; decide
    · by_cases h2 : s = "gmaps"
      · subst h2; decide
      · by_cases h3 : s = "reallyfreegeoip"
        · subst h3; decide
        · simp [g_strcmp0, strcmp_eq_zero, h1, h2, h3]

theorem gclue_config_init_out_ip (priv : GClueConfigPrivate) :
    (gclue_config_init_out priv).enable_ip_source =
      (priv.enable_ip_source &&
        decide (priv.ip_method ∈ [some "ichnaea", some "gmaps", some "reallyfreegeoip"])) ∧
    ((gclue_config_init_out priv).enable_ip_source = false ∨
      (gclue_config_init_out priv).ip_method = priv.ip_method) := by
  unfold gclue_config_init_out
  simp only [ip_method_check]
  cases he : priv.enable_ip_source <;>
    cases hd : decide (priv.ip_method ∈ [some "ichnaea", some "gmaps", some "reallyfreegeoip"]) <;>
    split_ifs <;> simp_all

/-- C8. After `gclue_config_init`, whatever the configuration files are: when the
Wi-Fi locate URL is unset or empty, both the Wi-Fi and the 3G source are reported
disabled. -/
theorem init_wifi_url_absent (build : BuildConfig) (base : Option GKeyFile)
    (dir : Option (List DirEntry))
    (habsent : gclue_config_get_wifi_url (gclue_config_init build base dir) = none ∨
      gclue_config_get_wifi_url (gclue_config_init build base dir) = some "") :
    gclue_config_get_enable_wifi_source (gclue_config_init build base dir) = false ∧
      gclue_config_get_enable_3g_source (gclue_config_init build base dir) = false := by
  unfold gclue_config_get_wifi_url gclue_config_init at habsent
  rw [gclue_config_init_out_wifi_url, ← string_present_eq_false] at habsent
  exact gclue_config_init_out_wifi_3g _ habsent

theorem init_wifi_url_absent_witness :
    (gclue_config_init_load build_all (some key_file_empty_wifi_url) none).enable_wifi_source =
        false ∧
      (gclue_config_init_load build_all (some key_file_empty_wifi_url) none).enable_3g_source =
        true ∧
      gclue_config_get_enable_wifi_source
        (gclue_config_init build_all (some key_file_empty_wifi_url) none) = false ∧
      gclue_config_get_enable_3g_source
        (gclue_config_init build_all (some key_file_empty_wifi_url) none) = false :=
  ⟨by decide, by decide,
    init_wifi_url_absent build_all (some key_file_empty_wifi_url) none (by decide)⟩

/-- C9. After `gclue_config_init`, whatever the configuration files are: the IP source
is reported enabled exactly when the loaded configuration enables it and the loaded
`ip/method` is one of "ichnaea", "gmaps" and "reallyfreegeoip"; and whenever it is
reported enabled the method getter returns one of these three. -/
theorem init_ip_source_enabled_iff (build : BuildConfig) (base : Option GKeyFile)
    (dir : Option (List DirEntry)) :
    (gclue_config_get_enable_ip_source (gclue_config_init build base dir) = true ↔
        (gclue_config_init_load build base dir).enable_ip_source = true ∧
          ∃ m ∈ ["ichnaea", "gmaps", "reallyfreegeoip"],
            (gclue_config_init_load build base dir).ip_method = some m) ∧
      (gclue_config_get_enable_ip_source (gclue_config_init build base dir) = false ∨
        ∃ m ∈ ["ichnaea", "gmaps", "reallyfreegeoip"],
          gclue_config_get_ip_method (gclue_config_init build base dir) = some m) := by
  unfold gclue_config_get_enable_ip_source gclue_config_get_ip_method gclue_config_init
  obtain ⟨h1, h2⟩ := gclue_config_init_out_ip (gclue_config_init_load build base dir)
  have hiff : (gclue_config_init_out (gclue_config_init_load build base dir)).enable_ip_source
        = true ↔
      (gclue_config_init_load build base dir).enable_ip_source = true ∧
        ∃ m ∈ ["ichnaea", "gmaps", "reallyfreegeoip"],
          (gclue_config_init_load build base dir).ip_method = some m := by
    rw [h1]
    simp only [Bool.and_eq_true, decide_eq_true_eq, List.mem_cons, List.mem_singleton,
      List.not_mem_nil, or_false]
    constructor
    · rintro ⟨he, hm | hm | hm⟩
      · exact ⟨he, "ichnaea", by simp, hm⟩
      · exact ⟨he, "gmaps", by simp, hm⟩
      · exact ⟨he, "reallyfreegeoip", by simp, hm⟩
    · rintro ⟨he, m, hm, hs⟩
      refine ⟨he, ?_⟩
      rw [hs]
      rcases hm with hm | hm | hm
      · exact Or.inl (by rw [hm])
      · exact Or.inr (Or.inl (by rw [hm]))
      · exact Or.inr (Or.inr (by rw [hm]))
  refine ⟨hiff, ?_⟩
  rcases h2 with h2 | h2
  · exact Or.inl h2
  · cases he : (gclue_config_init_out (gclue_config_init_load build base dir)).enable_ip_source
    · exact Or.inl rfl
    · right
      rw [h2]
      exact (hiff.mp he).2

/-! ## The order of the drop-in files -/

theorem strcmp_chars_total (a b : List Char) : strcmp_chars a b ≤ 0 ∨ strcmp_chars b a ≤ 0 := by
  induction a generalizing b with
  | nil => cases b <;> simp [strcmp_chars]
  | cons x xs ih =>
    cases b with
    | nil => simp [strcmp_chars]
    | cons y ys =>
      simp only [strcmp_chars]
      by_cases h1 : x.toNat < y.toNat
      · simp [h1]
      · by_cases h2 : y.toNat < x.toNat
        · simp [h1, h2]
        · simpa [h1, h2] using ih ys

theorem strcmp_chars_trans (a b c : List Char) (hab : strcmp_chars a b ≤ 0)
    (hbc : strcmp_chars b c ≤ 0) : strcmp_chars a c ≤ 0 := by
  induction a generalizing b c with
  | nil => cases c <;> simp [strcmp_chars]
  | cons x xs ih =>
    cases b with
    | nil => simp [strcmp_chars] at hab
    | cons y ys =>
      cases c with
      | nil => simp [strcmp_chars] at hbc
      | cons z zs =>
        simp only [strcmp_chars] at hab hbc ⊢
        by_cases hxy : x.toNat < y.toNat
        · by_cases hyz : y.toNat < z.toNat
          · have : x.toNat < z.toNat := by omega
            simp [this]
          · by_cases hzy : z.toNat < y.toNat
            · simp [hyz, hzy] at hbc
            · have : x.toNat < z.toNat := by omega
              simp [this]
        · by_cases hyx : y.toNat < x.toNat
          · simp [hxy, hyx] at hab
          · simp only [hxy, hyx, if_false] at hab
            by_cases hyz : y.toNat < z.toNat
            · have : x.toNat < z.toNat := by omega
              simp [this]
            · by_cases hzy : z.toNat < y.toNat
              · simp [hyz, hzy] at hbc
              · simp only [hyz, hzy, if_false] at hbc
                have h1 : ¬ x.toNat < z.toNat := by omega
                have h2 : ¬ z.toNat < x.toNat := by omega
                simpa [h1, h2] using ih ys zs hab hbc

instance : IsTotal DirEntry files_le :=
  ⟨fun a b => strcmp_chars_total a.1.data b.1.data⟩

instance : IsTrans DirEntry files_le :=
  ⟨fun a b c hab hbc => strcmp_chars_trans a.1.data b.1.data c.1.data hab hbc⟩

theorem load_string_value_snd (key_file : GKeyFile) (group_name key : String)
    (st : Option String) :
    (load_string_value key_file group_name key st).2 =
      (g_key_file_get_string key_file group_name key).or st := by
  unfold load_string_value g_key_file_has_key g_key_file_get_string
  cases key_file.value group_name key with
  | none => rfl
  | some v => cases h : v.as_string <;> simp [h]

theorem load_enable_source_snd (key_file : GKeyFile) (group_name : String) (compiled st : Bool) :
    (load_enable_source key_file group_name compiled st).2 =
      ((g_key_file_get_boolean key_file group_name "enable").map (· && compiled)).getD st := by
  unfold load_enable_source load_boolean_value g_key_file_has_key g_key_file_get_boolean
  cases key_file.value group_name "enable" with
  | none => rfl
  | some v =>
    cases h : v.as_boolean with
    | none => simp [h]
    | some b => cases b <;> cases compiled <;> simp [h]

theorem gclue_config_init_load_eq_foldl (build : BuildConfig) (base : Option GKeyFile)
    (dir : Option (List DirEntry)) :
    gclue_config_init_load build base dir =
      (config_files base dir).foldl (load_config_file build)
        (gclue_config_init_defaults build) := by
  simp only [gclue_config_init_load, config_files, List.foldl_cons, List.foldl_map]

theorem load_config_file_wifi_submit_nick (build : BuildConfig) (s : GClueConfigPrivate)
    (key_file : GKeyFile) :
    (load_config_file build s (some key_file)).wifi_submit_nick =
      (((g_key_file_get_string key_file "wifi" "submission-nick").filter
        nick_length_valid).map some).getD s.wifi_submit_nick := by
  have h : (load_config_file build s (some key_file)).wifi_submit_nick =
      match load_string_value key_file "wifi" "submission-nick" none with
      | (true, some wifi_submit_nick) =>
        if strlen wifi_submit_nick != 1 && strlen wifi_submit_nick ≤ 32 then
          some wifi_submit_nick
        else s.wifi_submit_nick
      | _ => s.wifi_submit_nick := rfl
  rw [h]
  unfold load_string_value g_key_file_has_key g_key_file_get_string
  cases key_file.value "wifi" "submission-nick" with
  | none => rfl
  | some v =>
    cases hv : v.as_string with
    | none => simp [hv]
    | some nick =>
      by_cases hl : nick_length_valid nick = true
      · have hl2 := hl
        simp only [nick_length_valid] at hl2
        simp [hv, Option.filter, hl, hl2]
      · have hl2 := hl
        simp only [nick_length_valid] at hl2
        simp [hv, Option.filter, hl, hl2]

/-- The three checks after the label `out`, as one update of the five members they
can change. -/
theorem gclue_config_init_out_eq (priv : GClueConfigPrivate) :
    gclue_config_init_out priv =
      { priv with
        enable_wifi_source := priv.enable_wifi_source && string_present priv.wifi_url
        enable_3g_source := priv.enable_3g_source && string_present priv.wifi_url
        wifi_submit := priv.wifi_submit && string_present priv.wifi_submit_url
        enable_ip_source := priv.enable_ip_source &&
          decide (priv.ip_method ∈ [some "ichnaea", some "gmaps", some "reallyfreegeoip"])
        ip_method :=
          if priv.enable_ip_source &&
              !decide (priv.ip_method ∈ [some "ichnaea", some "gmaps", some "reallyfreegeoip"])
          then none else priv.ip_method } := by
  unfold gclue_config_init_out
  simp only [ip_method_check]
  obtain ⟨agents, wifi_url, wifi_submit, e_nmea, e_3g, e_cdma, e_gps, e_wifi, e_compass,
    e_static, e_ip, wifi_submit_url, nick, nmea_socket, ip_method, ip_url, ip_accuracy,
    app_configs⟩ := priv
  simp only []
  cases ha : string_present wifi_url <;> cases e_3g <;> cases e_wifi <;>
    simp only [Bool.not_true, Bool.not_false, Bool.and_true, Bool.and_false, Bool.true_and,
      Bool.false_and, Bool.or_true, Bool.or_false, Bool.true_or, Bool.false_or, if_true,
      if_false, Bool.false_eq_true, ha] <;>
    cases hb : string_present wifi_submit_url <;> cases wifi_submit <;>
    simp only [Bool.not_true, Bool.not_false, Bool.and_true, Bool.and_false, Bool.true_and,
      Bool.false_and, if_true, if_false, Bool.false_eq_true, hb] <;>
    cases hd : decide (ip_method ∈ [some "ichnaea", some "gmaps", some "reallyfreegeoip"]) <;>
    cases e_ip <;>
    simp only [Bool.not_true, Bool.not_false, Bool.and_true, Bool.and_false, Bool.true_and,
      Bool.false_and, if_true, if_false, Bool.false_eq_true, hd]

theorem gclue_config_init_out_unchanged (priv : GClueConfigPrivate) :
    (gclue_config_init_out priv).nmea_socket = priv.nmea_socket ∧
      (gclue_config_init_out priv).ip_url = priv.ip_url ∧
      (gclue_config_init_out priv).ip_accuracy = priv.ip_accuracy ∧
      (gclue_config_init_out priv).wifi_url = priv.wifi_url ∧
      (gclue_config_init_out priv).wifi_submit_url = priv.wifi_submit_url ∧
      (gclue_config_init_out priv).wifi_submit_nick = priv.wifi_submit_nick ∧
      (gclue_config_init_out priv).enable_cdma_source = priv.enable_cdma_source ∧
      (gclue_config_init_out priv).enable_modem_gps_source = priv.enable_modem_gps_source ∧
      (gclue_config_init_out priv).enable_nmea_source = priv.enable_nmea_source ∧
      (gclue_config_init_out priv).enable_compass = priv.enable_compass ∧
      (gclue_config_init_out priv).enable_static_source = priv.enable_static_source ∧
      (gclue_config_init_out priv).agents = priv.agents ∧
      (gclue_config_init_out priv).app_configs = priv.app_configs := by
  rw [gclue_config_init_out_eq]
  simp

theorem gclue_config_init_out_forced (priv : GClueConfigPrivate) :
    (gclue_config_init_out priv).enable_wifi_source =
        (priv.enable_wifi_source && string_present priv.wifi_url) ∧
      (gclue_config_init_out priv).enable_3g_source =
        (priv.enable_3g_source && string_present priv.wifi_url) ∧
      (gclue_config_init_out priv).wifi_submit =
        (priv.wifi_submit && string_present priv.wifi_submit_url) := by
  rw [gclue_config_init_out_eq]
  simp

theorem foldl_invariant {σ α : Type} (P : σ → Prop) (step : σ → α → σ) (l : List α) (s : σ)
    (h0 : P s) (hstep : ∀ s a, a ∈ l → P s → P (step s a)) : P (l.foldl step s) := by
  induction l generalizing s with
  | nil => exact h0
  | cons a rest ih =>
    rw [List.foldl_cons]
    exact ih _ (hstep s a (List.mem_cons_self _ _) h0)
      (fun s b hb hs => hstep s b (List.mem_cons_of_mem _ hb) hs)

theorem load_config_file_without_keys (build : BuildConfig) (priv : GClueConfigPrivate)
    (key_file : GKeyFile) (hnokeys : ∀ group_name key, key_file.value group_name key = none)
    (h : defaults_stand build priv) :
    defaults_stand build (load_config_file build priv (some key_file)) := by
  have hb : ∀ group_name key, g_key_file_get_boolean key_file group_name key = none := by
    intro group_name key; simp [g_key_file_get_boolean, hnokeys]
  have hs : ∀ group_name key, g_key_file_get_string key_file group_name key = none := by
    intro group_name key; simp [g_key_file_get_string, hnokeys]
  have he : ∀ group_name compiled st,
      (load_enable_source key_file group_name compiled st).2 = st := by
    intro group_name compiled st; simp [load_enable_source_snd, hb]
  have hl : ∀ group_name key st, (load_string_value key_file group_name key st).2 = st := by
    intro group_name key st; simp [load_string_value_snd, hs]
  obtain ⟨h1, h2, h3, h4, h5, h6, h7, h8, h9, h10⟩ := h
  have hurl : (load_config_file build priv (some key_file)).wifi_url =
      if (load_string_value key_file "wifi" "url" priv.wifi_url).2 == some "" then none
      else (load_string_value key_file "wifi" "url" priv.wifi_url).2 := rfl
  refine ⟨(he _ _ _).trans h1, (he _ _ _).trans h2, (he _ _ _).trans h3, (he _ _ _).trans h4,
    (he _ _ _).trans h5, (he _ _ _).trans h6, (he _ _ _).trans h7, (he _ _ _).trans h8,
    (hl _ _ _).trans h9, ?_⟩
  rw [hurl, hl, ← h10]
  cases hu : priv.wifi_url with
  | none => rfl
  | some u => by_cases hu0 : u = "" <;> simp [hu0, string_present]

/-- C12, as stated, fails: with a base file without any key and an empty drop-in
directory, the IP source is reported disabled. -/
theorem init_without_keys_counterexample :
    g_key_file_get_groups key_file_empty = [] ∧
      (conf_d_files (some [])).length = 0 ∧
      gclue_config_get_enable_ip_source
        (gclue_config_init build_all (some key_file_empty) (some [])) = false := by
  decide

/-- C12, amended. When no loaded file sets any key, after `gclue_config_init` the nmea,
cdma, modem-gps, compass and static-source getters return TRUE, the wifi and 3g getters
return TRUE exactly when the built-in default Wi-Fi URL is not empty, and the ip
getter returns FALSE, no `ip/method` being set. -/
theorem init_without_keys (build : BuildConfig) (base : Option GKeyFile)
    (dir : Option (List DirEntry))
    (hnokeys : ∀ key_file, some key_file ∈ config_files base dir →
      ∀ group_name key, key_file.value group_name key = none) :
    gclue_config_get_enable_nmea_source (gclue_config_init build base dir) = true ∧
      gclue_config_get_enable_cdma_source (gclue_config_init build base dir) = true ∧
      gclue_config_get_enable_modem_gps_source (gclue_config_init build base dir) = true ∧
      gclue_config_get_enable_compass (gclue_config_init build base dir) = true ∧
      gclue_config_get_enable_static_source (gclue_config_init build base dir) = true ∧
      gclue_config_get_enable_wifi_source (gclue_config_init build base dir) =
        (build.default_wifi_url != "") ∧
      gclue_config_get_enable_3g_source (gclue_config_init build base dir) =
        (build.default_wifi_url != "") ∧
      gclue_config_get_enable_ip_source (gclue_config_init build base dir) = false := by
  have hload : defaults_stand build (gclue_config_init_load build base dir) := by
    rw [gclue_config_init_load_eq_foldl]
    refine foldl_invariant (defaults_stand build) (load_config_file build) _ _ ?_ ?_
    · simp [defaults_stand, gclue_config_init_defaults]
    · intro s loaded hmem hs
      cases loaded with
      | none => exact hs
      | some key_file => exact load_config_file_without_keys build s key_file (hnokeys _ hmem) hs
  obtain ⟨h1, h2, h3, h4, h5, h6, h7, h8, h9, h10⟩ := hload
  simp only [gclue_config_get_enable_cdma_source, gclue_config_get_enable_modem_gps_source,
    gclue_config_get_enable_nmea_source, gclue_config_get_enable_compass,
    gclue_config_get_enable_static_source, gclue_config_get_enable_wifi_source,
    gclue_config_get_enable_3g_source, gclue_config_get_enable_ip_source, gclue_config_init]
  obtain ⟨_, _, _, _, _, _, u7, u8, u9, u10, u11, _, _⟩ :=
    gclue_config_init_out_unchanged (gclue_config_init_load build base dir)
  obtain ⟨f1, f2, _⟩ := gclue_config_init_out_forced (gclue_config_init_load build base dir)
  rw [u7, u8, u9, u10, u11, f1, f2, (gclue_config_init_out_ip _).1, h1, h2, h3, h4, h5, h6, h7,
    h8, h9, h10]
  simp [string_present]

theorem init_without_keys_witness :
    gclue_config_get_enable_nmea_source
        (gclue_config_init build_without_cdma (some key_file_empty) none) = true ∧
      gclue_config_get_enable_cdma_source
        (gclue_config_init build_without_cdma (some key_file_empty) none) = true ∧
      gclue_config_get_enable_wifi_source
        (gclue_config_init build_without_cdma (some key_file_empty) none) = true ∧
      gclue_config_get_enable_ip_source
        (gclue_config_init build_without_cdma (some key_file_empty) none) = false := by
  have h := init_without_keys build_without_cdma (some key_file_empty) none (by
    intro key_file hmem group_name key
    have hk : key_file = key_file_empty := by
      simpa [config_files, conf_d_files] using hmem
    rw [hk]
    rfl)
  exact ⟨h.1, h.2.1, h.2.2.2.2.2.1.trans (by decide), h.2.2.2.2.2.2.2⟩

/-! ## The submission nickname -/

/-- C13. When a configuration file sets `wifi/submission-nick` to `s`, the stored
nickname becomes `s` if the length of `s` is 0 or from 2 to 32, and keeps its previous
value for every other `s`. -/
theorem load_config_file_submission_nick (build : BuildConfig) (priv : GClueConfigPrivate)
    (key_file : GKeyFile) (s : String)
    (hs : g_key_file_get_string key_file "wifi" "submission-nick" = some s) :
    (load_config_file build priv (some key_file)).wifi_submit_nick =
      if strlen s = 0 ∨ (2 ≤ strlen s ∧ strlen s ≤ 32) then some s
      else priv.wifi_submit_nick := by
  rw [load_config_file_wifi_submit_nick, hs]
  by_cases hv : nick_length_valid s = true
  · have hl : strlen s = 0 ∨ (2 ≤ strlen s ∧ strlen s ≤ 32) := by
      simp only [nick_length_valid, Bool.and_eq_true, bne_iff_ne, ne_eq,
        decide_eq_true_eq] at hv
      omega
    simp [Option.filter, hv, hl]
  · have hl : ¬ (strlen s = 0 ∨ (2 ≤ strlen s ∧ strlen s ≤ 32)) := by
      simp only [nick_length_valid, Bool.and_eq_true, bne_iff_ne, ne_eq,
        decide_eq_true_eq] at hv
      omega
    simp [Option.filter, hv, hl]

theorem load_config_file_submission_nick_witness :
    (load_config_file build_all (gclue_config_init_defaults build_all)
        (some (key_file_nick "x"))).wifi_submit_nick = some "geoclue" ∧
      (load_config_file build_all (gclue_config_init_defaults build_all)
        (some (key_file_nick ""))).wifi_submit_nick = some "" ∧
      (load_config_file build_all (gclue_config_init_defaults build_all)
        (some (key_file_nick "mapper"))).wifi_submit_nick = some "mapper" := by
  refine ⟨?_, ?_, ?_⟩
  · rw [load_config_file_submission_nick build_all _ (key_file_nick "x") "x" (by decide)]
    decide
  · rw [load_config_file_submission_nick build_all _ (key_file_nick "") "" (by decide)]
    decide
  · rw [load_config_file_submission_nick build_all _ (key_file_nick "mapper") "mapper"
      (by decide)]
    decide

/-! ## The setters -/

/-- C14, as stated, fails: after initialisation the public setter
`gclue_config_set_nmea_socket` changes what `gclue_config_get_nmea_socket` returns. -/
theorem read_only_counterexample :
    gclue_config_get_nmea_socket (gclue_config_init build_all (some key_file_empty) none) =
        none ∧
      gclue_config_get_nmea_socket
        (gclue_config_set_nmea_socket (gclue_config_init build_all (some key_file_empty) none)
          (some "/run/gps.sock")) = some "/run/gps.sock" := by
  decide

theorem gclue_config_calls_eq (calls : List GClueConfigCall) (priv : GClueConfigPrivate) :
    calls.foldl gclue_config_call priv =
      { priv with
        wifi_submit_nick := last_wifi_submit_nick calls priv.wifi_submit_nick
        wifi_submit := last_wifi_submit_data calls priv.wifi_submit
        nmea_socket := last_nmea_socket calls priv.nmea_socket } := by
  induction calls generalizing priv with
  | nil => rfl
  | cons call rest ih =>
    rw [List.foldl_cons, ih]
    cases call <;> rfl

theorem last_values_without_setter (calls : List GClueConfigCall)
    (h : ∀ call ∈ calls, call.is_setter = false) (nick socket : Option String)
    (submit : Bool) :
    last_wifi_submit_nick calls nick = nick ∧ last_wifi_submit_data calls submit = submit ∧
      last_nmea_socket calls socket = socket := by
  induction calls with
  | nil => exact ⟨rfl, rfl, rfl⟩
  | cons call rest ih =>
    have hrest := ih (fun c hc => h c (List.mem_cons_of_mem _ hc))
    have hcall := h call (List.mem_cons_self _ _)
    unfold last_wifi_submit_nick last_wifi_submit_data last_nmea_socket at hrest ⊢
    simp only [List.foldl_cons]
    cases call <;> first | exact hrest | cases hcall

/-- C14, amended. After loading, the configuration changes only through its three
public setters.  A call of any other public function of the store leaves the private
data as it was; `gclue_config_set_wifi_submit_nick`, `gclue_config_set_wifi_submit_data`
and `gclue_config_set_nmea_socket` each make their own getter return the value given
and leave every other member, hence every other getter and the app permissions, as
they were.  So after any sequence of public calls the configuration is the loaded one
with these three members replaced by the values of the last call of their setter, and
it is the loaded one when the sequence has no setter call. -/
theorem config_changes_only_through_setters (priv : GClueConfigPrivate)
    (calls : List GClueConfigCall) (nick nmea_socket : Option String) (submit : Bool) :
    (∀ call : GClueConfigCall, call.is_setter = false → gclue_config_call priv call = priv) ∧
    (gclue_config_call priv (.set_wifi_submit_nick nick) =
        gclue_config_set_wifi_submit_nick priv nick ∧
      gclue_config_call priv (.set_wifi_submit_data submit) =
        gclue_config_set_wifi_submit_data priv submit ∧
      gclue_config_call priv (.set_nmea_socket nmea_socket) =
        gclue_config_set_nmea_socket priv nmea_socket) ∧
    (gclue_config_get_wifi_submit_nick (gclue_config_set_wifi_submit_nick priv nick) = nick ∧
      { gclue_config_set_wifi_submit_nick priv nick with
        wifi_submit_nick := priv.wifi_submit_nick } = priv ∧
      gclue_config_get_wifi_submit_data (gclue_config_set_wifi_submit_data priv submit) =
        submit ∧
      { gclue_config_set_wifi_submit_data priv submit with wifi_submit := priv.wifi_submit } =
        priv ∧
      gclue_config_get_nmea_socket (gclue_config_set_nmea_socket priv nmea_socket) =
        nmea_socket ∧
      { gclue_config_set_nmea_socket priv nmea_socket with nmea_socket := priv.nmea_socket } =
        priv) ∧
    calls.foldl gclue_config_call priv =
      { priv with
        wifi_submit_nick := last_wifi_submit_nick calls priv.wifi_submit_nick
        wifi_submit := last_wifi_submit_data calls priv.wifi_submit
        nmea_socket := last_nmea_socket calls priv.nmea_socket } ∧
    ((∀ call ∈ calls, call.is_setter = false) → calls.foldl gclue_config_call priv = priv) := by
  refine ⟨?_, ⟨rfl, rfl, rfl⟩, ⟨rfl, rfl, rfl, rfl, rfl, rfl⟩, gclue_config_calls_eq calls priv,
    ?_⟩
  · intro call hcall
    cases call <;> first | rfl | cases hcall
  · intro h
    rw [gclue_config_calls_eq]
    obtain ⟨h1, h2, h3⟩ := last_values_without_setter calls h priv.wifi_submit_nick
      priv.nmea_socket priv.wifi_submit
    rw [h1, h2, h3]

theorem config_changes_only_through_setters_witness :
    calls_example.foldl gclue_config_call
        (gclue_config_init build_all (some key_file_empty) none) =
      { gclue_config_init build_all (some key_file_empty) none with
        nmea_socket := some "/run/gps.sock" } ∧
      [GClueConfigCall.get_wifi_url, GClueConfigCall.get_ip_accuracy].foldl gclue_config_call
          (gclue_config_init build_all (some key_file_empty) none) =
        gclue_config_init build_all (some key_file_empty) none :=
  ⟨(config_changes_only_through_setters
      (gclue_config_init build_all (some key_file_empty) none) calls_example none none
      false).2.2.2.1,
    (config_changes_only_through_setters
      (gclue_config_init build_all (some key_file_empty) none)
      [.get_wifi_url, .get_ip_accuracy] none none false).2.2.2.2 (by decide)⟩

/-! ## System components -/

/-- C15. With pairwise distinct entry ids, `gclue_config_is_system_component` returns
TRUE exactly when some entry has the desktop id and a true system flag; the result
is unchanged when the allowed flags and users lists of the entries are replaced by
anything else, and it is FALSE for a desktop id without an entry. -/
theorem is_system_component_iff (priv : GClueConfigPrivate) (desktop_id : String)
    (allowed : AppConfig → Bool) (users : AppConfig → List Int)
    (hnodup : (priv.app_configs.map AppConfig.id).Nodup) :
    (gclue_config_is_system_component priv (some desktop_id) = true ↔
        ∃ c ∈ priv.app_configs, c.id = desktop_id ∧ c.system = true) ∧
      gclue_config_is_system_component
          { priv with
            app_configs := priv.app_configs.map fun c =>
              { c with allowed := allowed c, users := users c } }
          (some desktop_id) =
        gclue_config_is_system_component priv (some desktop_id) ∧
      ((∀ c ∈ priv.app_configs, c.id ≠ desktop_id) →
        gclue_config_is_system_component priv (some desktop_id) = false) := by
  refine ⟨?_, ?_, ?_⟩
  · constructor
    · intro h
      simp only [gclue_config_is_system_component] at h
      cases hf : find_app_config priv.app_configs desktop_id with
      | none => simp [hf] at h
      | some c =>
        obtain ⟨hid, hmem⟩ := find_app_config_some_id hf
        exact ⟨c, hmem, hid, by simpa [hf] using h⟩
    · rintro ⟨c, hmem, hid, hsys⟩
      have hf := find_app_config_of_mem priv.app_configs c hnodup hmem
      rw [hid] at hf
      simp [gclue_config_is_system_component, hf, hsys]
  · simp only [gclue_config_is_system_component, find_app_config]
    induction priv.app_configs with
    | nil => rfl
    | cons c rest ih =>
      simp only [List.map_cons, List.find?_cons]
      cases strcmp c.id desktop_id == 0
      · simpa using ih
      · rfl
  · intro hnone
    have hf := (find_app_config_eq_none priv.app_configs desktop_id).mpr hnone
    simp [gclue_config_is_system_component, hf]

theorem is_system_component_iff_witness :
    gclue_config_is_system_component priv_two_apps (some "org.example.Tracker") = true ∧
      gclue_config_is_system_component priv_two_apps (some "org.example.Maps") = false :=
  ⟨(is_system_component_iff priv_two_apps "org.example.Tracker" (fun _ => true) (fun _ => [])
      (by decide)).1.mpr ⟨_, List.mem_cons_self _ _, rfl, rfl⟩,
    by
      have h := (is_system_component_iff priv_two_apps "org.example.Maps" (fun _ => true)
        (fun _ => []) (by decide)).1
      cases hs : gclue_config_is_system_component priv_two_apps (some "org.example.Maps") with
      | false => rfl
      | true =>
        obtain ⟨c, hmem, hid, hsys⟩ := h.mp hs
        simp only [priv_two_apps, List.mem_cons, List.mem_singleton, List.not_mem_nil,
          or_false] at hmem
        rcases hmem with hc | hc <;> subst hc <;> simp at hid hsys⟩

/-! ## Rounding to one significant figure -/

theorem int_log_eq (q : ℚ) (k : ℤ) (hq : 0 < q) (h1 : (10 : ℚ) ^ k ≤ q)
    (h2 : q < (10 : ℚ) ^ (k + 1)) : Int.log 10 q = k := by
  apply le_antisymm
  · have h := (Int.lt_zpow_iff_log_lt (b := 10) (by norm_num) (x := k + 1) hq).mp
      (by simpa using h2)
    omega
  · exact (Int.zpow_le_iff_le_log (b := 10) (by norm_num) (x := k) hq).mp (by simpa using h1)

/-- For a value of at least 1 and below ten thousand millions, `round_to_1fig` keeps
the decimal exponent `k` and rounds the leading figure to the nearest integer `n`. -/
theorem round_to_1fig_eval (q : ℚ) (k : ℕ) (n : ℤ) (hk : k ≤ 9) (h1 : (10 : ℚ) ^ k ≤ q)
    (h2 : q < (10 : ℚ) ^ (k + 1)) (hn1 : (n : ℚ) ≤ q / 10 ^ k + 1 / 2)
    (hn2 : q / 10 ^ k + 1 / 2 < n + 1) :
    round_to_1fig (.finite q) = .returns (.finite (n * 10 ^ k)) := by
  have hpos : (0 : ℚ) < 10 ^ k := by positivity
  have hq : 0 < q := lt_of_lt_of_le hpos h1
  have hlog : Int.log 10 q = (k : ℤ) :=
    int_log_eq q k hq (by simpa using h1) (by
      have : ((k : ℤ) + 1) = ((k + 1 : ℕ) : ℤ) := by push_cast; ring
      rw [this, zpow_natCast]; exact h2)
  have hk0 : ¬ ((k : ℤ) < 0) := by omega
  have hk9 : (k : ℤ) ≤ 9 := by omega
  have hne : ((10 : ℤ) ^ k : ℚ) ≠ 0 := by positivity
  have hnonneg : (0 : ℚ) ≤ q / 10 ^ k := by positivity
  have hfloor : ⌊q / 10 ^ k + 1 / 2⌋ = n := Int.floor_eq_iff.mpr ⟨hn1, hn2⟩
  simp only [round_to_1fig, floor_log10, hq, if_true, hlog, CResult.bind, pow10_int, hk0,
    if_false, hk9, Int.toNat_ofNat, Double.of_int, Double.div, Int.cast_pow, Int.cast_ofNat,
    Double.round, Double.mul]
  have hne2 : ((10 : ℚ) ^ k) ≠ 0 := by positivity
  simp only [hne2, if_false, hnonneg, if_true, hfloor]

/-- For a positive value below 1 the integer `base` of `round_to_1fig` is zero, the
quotient is an infinity and the returned product is a NaN. -/
theorem round_to_1fig_below_one (q : ℚ) (h0 : 0 < q) (h1 : q < 1) :
    round_to_1fig (.finite q) = .returns .nan := by
  have hlog : Int.log 10 q < 0 :=
    (Int.lt_zpow_iff_log_lt (b := 10) (by norm_num) (x := 0) h0).mp (by simpa using h1)
  have hq0 : q ≠ 0 := ne_of_gt h0
  have hnlt : ¬ q < 0 := not_lt.mpr h0.le
  simp [round_to_1fig, floor_log10, h0, CResult.bind, pow10_int, hlog, Double.of_int,
    Double.div, hq0, hnlt, Double.round, Double.mul]

theorem gmaps_zoom_accuracy_zero : gmaps_zoom_accuracy 0 = round_to_1fig (.finite 10000000) := by
  simp [gmaps_zoom_accuracy, GMAPS_SCALE]

theorem gmaps_zoom_accuracy_pos (zoom : Nat) (h1 : 1 ≤ zoom) (h2 : zoom ≤ 31) :
    gmaps_zoom_accuracy zoom = round_to_1fig (.finite (10000000 / 2 ^ (zoom - 1))) := by
  have hs : zoom - 1 < 31 := by omega
  have hne : ((2 : ℚ) ^ (zoom - 1)) ≠ 0 := by positivity
  simp [gmaps_zoom_accuracy, h1, shift_left_int, hs, CResult.bind, GMAPS_SCALE, Double.div,
    Double.of_int, hne]

theorem gmaps_zoom_accuracy_table (zoom : Nat) (h : zoom ≤ 24) :
    gmaps_zoom_accuracy zoom = .returns (.finite (gmaps_accuracy_table zoom)) := by
  interval_cases zoom
  · rw [gmaps_zoom_accuracy_zero, round_to_1fig_eval _ 7 1 (by norm_num) (by norm_num)
      (by norm_num) (by norm_num) (by norm_num)]
    norm_num [gmaps_accuracy_table]
  · rw [gmaps_zoom_accuracy_pos 1 (by norm_num) (by norm_num),
      round_to_1fig_eval _ 7 1 (by norm_num) (by norm_num) (by norm_num) (by norm_num)
        (by norm_num)]
    norm_num [gmaps_accuracy_table]
  · rw [gmaps_zoom_accuracy_pos 2 (by norm_num) (by norm_num),
      round_to_1fig_eval _ 6 5 (by norm_num) (by norm_num) (by norm_num) (by norm_num)
        (by norm_num)]
    norm_num [gmaps_accuracy_table]
  · rw [gmaps_zoom_accuracy_pos 3 (by norm_num) (by norm_num),
      round_to_1fig_eval _ 6 3 (by norm_num) (by norm_num) (by norm_num) (by norm_num)
        (by norm_num)]
    norm_num [gmaps_accuracy_table]
  · rw [gmaps_zoom_accuracy_pos 4 (by norm_num) (by norm_num),
      round_to_1fig_eval _ 6 1 (by norm_num) (by norm_num) (by norm_num) (by norm_num)
        (by norm_num)]
    norm_num [gmaps_accuracy_table]
  · rw [gmaps_zoom_accuracy_pos 5 (by norm_num) (by norm_num),
      round_to_1fig_eval _ 5 6 (by norm_num) (by norm_num) (by norm_num) (by norm_num)
        (by norm_num)]
    norm_num [gmaps_accuracy_table]
  · rw [gmaps_zoom_accuracy_pos 6 (by norm_num) (by norm_num),
      round_to_1fig_eval _ 5 3 (by norm_num) (by norm_num) (by norm_num) (by norm_num)
        (by norm_num)]
    norm_num [gmaps_accuracy_table]
  · rw [gmaps_zoom_accuracy_pos 7 (by norm_num) (by norm_num),
      round_to_1fig_eval _ 5 2 (by norm_num) (by norm_num) (by norm_num) (by norm_num)
        (by norm_num)]
    norm_num [gmaps_accuracy_table]
  · rw [gmaps_zoom_accuracy_pos 8 (by norm_num) (by norm_num),
      round_to_1fig_eval _ 4 8 (by norm_num) (by norm_num) (by norm_num) (by norm_num)
        (by norm_num)]
    norm_num [gmaps_accuracy_table]
  · rw [gmaps_zoom_accuracy_pos 9 (by norm_num) (by norm_num),
      round_to_1fig_eval _ 4 4 (by norm_num) (by norm_num) (by norm_num) (by norm_num)
        (by norm_num)]
    norm_num [gmaps_accuracy_table]
  · rw [gmaps_zoom_accuracy_pos 10 (by norm_num) (by norm_num),
      round_to_1fig_eval _ 4 2 (by norm_num) (by norm_num) (by norm_num) (by norm_num)
        (by norm_num)]
    norm_num [gmaps_accuracy_table]
  · rw [gmaps_zoom_accuracy_pos 11 (by norm_num) (by norm_num),
      round_to_1fig_eval _ 3 10 (by norm_num) (by norm_num) (by norm_num) (by norm_num)
        (by norm_num)]
    norm_num [gmaps_accuracy_table]
  · rw [gmaps_zoom_accuracy_pos 12 (by norm_num) (by norm_num),
      round_to_1fig_eval _ 3 5 (by norm_num) (by norm_num) (by norm_num) (by norm_num)
        (by norm_num)]
    norm_num [gmaps_accuracy_table]
  · rw [gmaps_zoom_accuracy_pos 13 (by norm_num) (by norm_num),
      round_to_1fig_eval _ 3 2 (by norm_num) (by norm_num) (by norm_num) (by norm_num)
        (by norm_num)]
    norm_num [gmaps_accuracy_table]
  · rw [gmaps_zoom_accuracy_pos 14 (by norm_num) (by norm_num),
      round_to_1fig_eval _ 3 1 (by norm_num) (by norm_num) (by norm_num) (by norm_num)
        (by norm_num)]
    norm_num [gmaps_accuracy_table]
  · rw [gmaps_zoom_accuracy_pos 15 (by norm_num) (by norm_num),
      round_to_1fig_eval _ 2 6 (by norm_num) (by norm_num) (by norm_num) (by norm_num)
        (by norm_num)]
    norm_num [gmaps_accuracy_table]
  · rw [gmaps_zoom_accuracy_pos 16 (by norm_num) (by norm_num),
      round_to_1fig_eval _ 2 3 (by norm_num) (by norm_num) (by norm_num) (by norm_num)
        (by norm_num)]
    norm_num [gmaps_accuracy_table]
  · rw [gmaps_zoom_accuracy_pos 17 (by norm_num) (by norm_num),
      round_to_1fig_eval _ 2 2 (by norm_num) (by norm_num) (by norm_num) (by norm_num)
        (by norm_num)]
    norm_num [gmaps_accuracy_table]
  · rw [gmaps_zoom_accuracy_pos 18 (by norm_num) (by norm_num),
      round_to_1fig_eval _ 1 8 (by norm_num) (by norm_num) (by norm_num) (by norm_num)
        (by norm_num)]
    norm_num [gmaps_accuracy_table]
  · rw [gmaps_zoom_accuracy_pos 19 (by norm_num) (by norm_num),
      round_to_1fig_eval _ 1 4 (by norm_num) (by norm_num) (by norm_num) (by norm_num)
        (by norm_num)]
    norm_num [gmaps_accuracy_table]
  · rw [gmaps_zoom_accuracy_pos 20 (by norm_num) (by norm_num),
      round_to_1fig_eval _ 1 2 (by norm_num) (by norm_num) (by norm_num) (by norm_num)
        (by norm_num)]
    norm_num [gmaps_accuracy_table]
  · rw [gmaps_zoom_accuracy_pos 21 (by norm_num) (by norm_num),
      round_to_1fig_eval _ 0 10 (by norm_num) (by norm_num) (by norm_num) (by norm_num)
        (by norm_num)]
    norm_num [gmaps_accuracy_table]
  · rw [gmaps_zoom_accuracy_pos 22 (by norm_num) (by norm_num),
      round_to_1fig_eval _ 0 5 (by norm_num) (by norm_num) (by norm_num) (by norm_num)
        (by norm_num)]
    norm_num [gmaps_accuracy_table]
  · rw [gmaps_zoom_accuracy_pos 23 (by norm_num) (by norm_num),
      round_to_1fig_eval _ 0 2 (by norm_num) (by norm_num) (by norm_num) (by norm_num)
        (by norm_num)]
    norm_num [gmaps_accuracy_table]
  · rw [gmaps_zoom_accuracy_pos 24 (by norm_num) (by norm_num),
      round_to_1fig_eval _ 0 1 (by norm_num) (by norm_num) (by norm_num) (by norm_num)
        (by norm_num)]
    norm_num [gmaps_accuracy_table]

theorem gmaps_zoom_accuracy_nan (zoom : Nat) (h1 : 25 ≤ zoom) (h2 : zoom ≤ 31) :
    gmaps_zoom_accuracy zoom = .returns .nan := by
  rw [gmaps_zoom_accuracy_pos zoom (by omega) h2]
  apply round_to_1fig_below_one
  · positivity
  · have hpow : (2 : ℚ) ^ 24 ≤ 2 ^ (zoom - 1) :=
      pow_le_pow_right₀ (by norm_num) (by omega)
    rw [div_lt_one (by positivity)]
    calc (10000000 : ℚ) < 2 ^ 24 := by norm_num
      _ ≤ 2 ^ (zoom - 1) := hpow

theorem gmaps_zoom_accuracy_undefined (zoom : Nat) (h : 32 ≤ zoom) :
    gmaps_zoom_accuracy zoom = .undefined := by
  have h1 : zoom ≥ 1 := by omega
  have h2 : ¬ zoom - 1 < 31 := by omega
  simp [gmaps_zoom_accuracy, h1, shift_left_int, h2, CResult.bind]

theorem ip_default_accuracy : ip_default.accuracy = .finite (-1) := by
  decide

theorem ip_default_not_configured : ip_default.accuracy.gt (accuracy_unknown build_all) = false := by
  rw [ip_default_accuracy]
  simp [Double.gt, Double.lt, accuracy_unknown, build_all]

/-! ## The parsers of the IP source -/

theorem gmaps_eval_zoom_10 (latitude longitude : Double) (description : Option String) :
    gmaps_parse_response build_all ip_default description (some (latitude, longitude, 10)) =
      if latitude.le (.finite (-180)) || latitude.gt (.finite 180) ||
          longitude.gt (.finite 90) || longitude.lt (.finite (-90)) then .returns none
      else .returns (some (gclue_location_new latitude longitude (.finite 20000) description)) := by
  have h : gmaps_accuracy_table 10 = 20000 := rfl
  unfold gmaps_parse_response
  simp only []
  rw [ip_default_not_configured, gmaps_zoom_accuracy_table 10 (by norm_num), h]
  simp only [Bool.false_eq_true, if_false, CResult.bind]
  have h1 : (Double.finite 20000).gt GMAPS_SCALE = false := by
    norm_num [Double.gt, Double.lt, GMAPS_SCALE]
  have h2 : (Double.finite 20000).lt (.finite 1) = false := by
    norm_num [Double.lt]
  rw [h1, h2]
  simp only [Bool.or_false]

/-- C16: the code at a failing input.  With no accuracy configured, a GMaps match that
reads latitude 120.5, longitude 10 and zoom 10 yields a location whose latitude is
120.5, outside [-90, 90]; and a match that reads latitude 45 and longitude 120, both
within range, yields none. -/
theorem gmaps_latitude_out_of_range :
    gmaps_parse_response build_all ip_default (some "GeoIP (gmaps)")
        (some (.finite 120.5, .finite 10, 10)) =
      .returns (some
        { latitude := .finite 120.5, longitude := .finite 10, accuracy := .finite 20000,
          description := some "GeoIP (gmaps)" }) ∧
      ¬ ((120.5 : ℚ) ≤ 90) ∧
      gmaps_parse_response build_all ip_default (some "GeoIP (gmaps)")
        (some (.finite 45, .finite 120, 10)) = .returns none := by
  refine ⟨?_, by norm_num, ?_⟩
  · rw [gmaps_eval_zoom_10]
    norm_num [Double.le, Double.lt, Double.gt, gclue_location_new]
  · rw [gmaps_eval_zoom_10]
    norm_num [Double.le, Double.lt, Double.gt, gclue_location_new]

/-- C17. For a response that parses as JSON, `reallyfreegeoip_parse_response` returns
a location exactly when the latitude read lies in [-90, 90] and the longitude read
lies in (-180, 180], and the location carries the latitude and longitude read; a
number read from JSON is never a NaN. -/
theorem reallyfreegeoip_location_iff (build : BuildConfig) (ip : GClueIpPrivate)
    (description : Option String) (latitude longitude : Double)
    (hlat : latitude ≠ .nan) (hlon : longitude ≠ .nan) :
    ((∃ l, reallyfreegeoip_parse_response build ip description (some (latitude, longitude)) =
          some l) ↔
        ∃ la lo : ℚ, latitude = .finite la ∧ longitude = .finite lo ∧
          -90 ≤ la ∧ la ≤ 90 ∧ -180 < lo ∧ lo ≤ 180) ∧
      ∀ l, reallyfreegeoip_parse_response build ip description (some (latitude, longitude)) =
          some l →
        l.latitude = latitude ∧ l.longitude = longitude := by
  constructor
  · cases latitude with
    | nan => exact absurd rfl hlat
    | infinity n =>
      cases n <;> cases longitude <;>
        simp [reallyfreegeoip_parse_response, Double.lt, Double.gt, Double.le]
    | finite la =>
      cases longitude with
      | nan => exact absurd rfl hlon
      | infinity n =>
        cases n <;> simp [reallyfreegeoip_parse_response, Double.lt, Double.gt, Double.le]
      | finite lo =>
        simp only [reallyfreegeoip_parse_response, Double.lt, Double.gt, Double.le,
          Double.finite.injEq, exists_and_left, exists_eq_left']
        by_cases h1 : la < -90 <;> by_cases h2 : 90 < la <;> by_cases h3 : lo ≤ -180 <;>
          by_cases h4 : 180 < lo <;> simp [h1, h2, h3, h4]
        exact ⟨by linarith, by linarith, by linarith, by linarith⟩
  · intro l hl
    simp only [reallyfreegeoip_parse_response] at hl
    split_ifs at hl <;>
      (simp only [Option.some.injEq] at hl; rw [← hl]; exact ⟨rfl, rfl⟩)

theorem reallyfreegeoip_location_iff_witness :
    ∃ l, reallyfreegeoip_parse_response build_all ip_default (some "GeoIP (reallyfreegeoip)")
      (some (.finite 48, .finite 180)) = some l :=
  (reallyfreegeoip_location_iff build_all ip_default (some "GeoIP (reallyfreegeoip)")
    (.finite 48) (.finite 180) (by decide) (by decide)).1.mpr
    ⟨48, 180, rfl, rfl, by norm_num, by norm_num, by norm_num, by norm_num⟩

theorem gmaps_accuracy_table_bounds (zoom : Nat) (h : zoom ≤ 24) :
    1 ≤ gmaps_accuracy_table zoom ∧ gmaps_accuracy_table zoom ≤ 10000000 ∧
      (gmaps_accuracy_table zoom ≤ 15000 ↔ 11 ≤ zoom) := by
  interval_cases zoom
  · norm_num [show gmaps_accuracy_table 0 = 10000000 from rfl]
  · norm_num [show gmaps_accuracy_table 1 = 10000000 from rfl]
  · norm_num [show gmaps_accuracy_table 2 = 5000000 from rfl]
  · norm_num [show gmaps_accuracy_table 3 = 3000000 from rfl]
  · norm_num [show gmaps_accuracy_table 4 = 1000000 from rfl]
  · norm_num [show gmaps_accuracy_table 5 = 600000 from rfl]
  · norm_num [show gmaps_accuracy_table 6 = 300000 from rfl]
  · norm_num [show gmaps_accuracy_table 7 = 200000 from rfl]
  · norm_num [show gmaps_accuracy_table 8 = 80000 from rfl]
  · norm_num [show gmaps_accuracy_table 9 = 40000 from rfl]
  · norm_num [show gmaps_accuracy_table 10 = 20000 from rfl]
  · norm_num [show gmaps_accuracy_table 11 = 10000 from rfl]
  · norm_num [show gmaps_accuracy_table 12 = 5000 from rfl]
  · norm_num [show gmaps_accuracy_table 13 = 2000 from rfl]
  · norm_num [show gmaps_accuracy_table 14 = 1000 from rfl]
  · norm_num [show gmaps_accuracy_table 15 = 600 from rfl]
  · norm_num [show gmaps_accuracy_table 16 = 300 from rfl]
  · norm_num [show gmaps_accuracy_table 17 = 200 from rfl]
  · norm_num [show gmaps_accuracy_table 18 = 80 from rfl]
  · norm_num [show gmaps_accuracy_table 19 = 40 from rfl]
  · norm_num [show gmaps_accuracy_table 20 = 20 from rfl]
  · norm_num [show gmaps_accuracy_table 21 = 10 from rfl]
  · norm_num [show gmaps_accuracy_table 22 = 5 from rfl]
  · norm_num [show gmaps_accuracy_table 23 = 2 from rfl]
  · norm_num [show gmaps_accuracy_table 24 = 1 from rfl]

theorem reallyfreegeoip_parse_in_range (build : BuildConfig) (ip : GClueIpPrivate)
    (description : Option String) (la lo : ℚ) (h1 : -90 ≤ la) (h2 : la ≤ 90)
    (h3 : -180 < lo) (h4 : lo ≤ 180) :
    reallyfreegeoip_parse_response build ip description (some (.finite la, .finite lo)) =
      some (gclue_location_new (.finite la) (.finite lo)
        (if ip.accuracy.gt (accuracy_unknown build) then ip.accuracy
         else REALLYFREEGEOIP_ACCURACY) description) := by
  have e1 : (Double.finite la).lt (.finite (-90)) = false := by
    simp only [Double.lt, decide_eq_false_iff_not, not_lt]; exact h1
  have e2 : (Double.finite la).gt (.finite 90) = false := by
    simp only [Double.gt, Double.lt, decide_eq_false_iff_not, not_lt]; exact h2
  have e3 : (Double.finite lo).le (.finite (-180)) = false := by
    simp only [Double.le, decide_eq_false_iff_not, not_le]; exact h3
  have e4 : (Double.finite lo).gt (.finite 180) = false := by
    simp only [Double.gt, Double.lt, decide_eq_false_iff_not, not_lt]; exact h4
  simp only [reallyfreegeoip_parse_response, e1, e2, e3, e4, Bool.or_false,
    Bool.false_eq_true, if_false]

theorem gmaps_parse_in_range (build : BuildConfig) (ip : GClueIpPrivate)
    (description : Option String) (la lo acc : ℚ) (zoom : Nat)
    (h1 : -180 < la) (h2 : la ≤ 180) (h3 : -90 ≤ lo) (h4 : lo ≤ 90)
    (hacc : (if ip.accuracy.gt (accuracy_unknown build) then CResult.returns ip.accuracy
      else gmaps_zoom_accuracy zoom) = .returns (.finite acc))
    (h5 : 1 ≤ acc) (h6 : acc ≤ 10000000) :
    gmaps_parse_response build ip description (some (.finite la, .finite lo, zoom)) =
      .returns (some (gclue_location_new (.finite la) (.finite lo) (.finite acc)
        description)) := by
  have e1 : (Double.finite la).le (.finite (-180)) = false := by
    simp only [Double.le, decide_eq_false_iff_not, not_le]; exact h1
  have e2 : (Double.finite la).gt (.finite 180) = false := by
    simp only [Double.gt, Double.lt, decide_eq_false_iff_not, not_lt]; exact h2
  have e3 : (Double.finite lo).gt (.finite 90) = false := by
    simp only [Double.gt, Double.lt, decide_eq_false_iff_not, not_lt]; exact h4
  have e4 : (Double.finite lo).lt (.finite (-90)) = false := by
    simp only [Double.lt, decide_eq_false_iff_not, not_lt]; exact h3
  have e5 : (Double.finite acc).gt GMAPS_SCALE = false := by
    simp only [Double.gt, Double.lt, GMAPS_SCALE, decide_eq_false_iff_not, not_lt]; exact h6
  have e6 : (Double.finite acc).lt (.finite 1) = false := by
    simp only [Double.lt, decide_eq_false_iff_not, not_lt]; exact h5
  unfold gmaps_parse_response
  simp only []
  rw [hacc]
  simp only [CResult.bind, e1, e2, e3, e4, e5, e6, Bool.or_false, Bool.false_eq_true, if_false]

/-- C18. With the accuracy the IP source copies from the configuration: when the
configured `ip/accuracy` is greater than the unknown-accuracy sentinel, every location
that a parser returns has the configured accuracy; otherwise it has the accuracy the
server reported (ichnaea), the accuracy derived from the zoom (gmaps) or 20000 m
(reallyfreegeoip).  And the parsers do return such locations: ichnaea for every parsed
response, reallyfreegeoip for all coordinates within its range test, and gmaps for all
coordinates within its range test when the configured accuracy lies between 1 m and
10000 km or, with none configured, the zoom is at most 24. -/
theorem ip_accuracy_configured_or_default (build : BuildConfig) (config : GClueConfigPrivate)
    (description : Option String) :
    ((∀ parsed l,
        ichnaea_parse_response build (gclue_ip_init_accuracy config) (some parsed) = some l →
        l.accuracy =
          if build.accuracy_unknown < gclue_config_get_ip_accuracy config then
            .finite (gclue_config_get_ip_accuracy config)
          else parsed.accuracy) ∧
      (∀ latitude longitude zoom l,
        gmaps_parse_response build (gclue_ip_init_accuracy config) description
            (some (latitude, longitude, zoom)) = .returns (some l) →
        if build.accuracy_unknown < gclue_config_get_ip_accuracy config then
          l.accuracy = .finite (gclue_config_get_ip_accuracy config)
        else gmaps_zoom_accuracy zoom = .returns l.accuracy) ∧
      (∀ latitude longitude l,
        reallyfreegeoip_parse_response build (gclue_ip_init_accuracy config) description
            (some (latitude, longitude)) = some l →
        l.accuracy =
          if build.accuracy_unknown < gclue_config_get_ip_accuracy config then
            .finite (gclue_config_get_ip_accuracy config)
          else .finite 20000)) ∧
    (∀ parsed : GClueLocation,
      ichnaea_parse_response build (gclue_ip_init_accuracy config) (some parsed) =
        some { latitude := parsed.latitude
               longitude := parsed.longitude
               accuracy :=
                 if build.accuracy_unknown < gclue_config_get_ip_accuracy config then
                   .finite (gclue_config_get_ip_accuracy config)
                 else parsed.accuracy
               description := some "GeoIP (ichnaea)" }) ∧
    (∀ la lo : ℚ, -90 ≤ la → la ≤ 90 → -180 < lo → lo ≤ 180 →
      reallyfreegeoip_parse_response build (gclue_ip_init_accuracy config) description
          (some (.finite la, .finite lo)) =
        some { latitude := .finite la
               longitude := .finite lo
               accuracy :=
                 if build.accuracy_unknown < gclue_config_get_ip_accuracy config then
                   .finite (gclue_config_get_ip_accuracy config)
                 else .finite 20000
               description := description }) ∧
    (∀ (la lo : ℚ) (zoom : Nat), -180 < la → la ≤ 180 → -90 ≤ lo → lo ≤ 90 →
      (build.accuracy_unknown < gclue_config_get_ip_accuracy config →
        1 ≤ gclue_config_get_ip_accuracy config →
        gclue_config_get_ip_accuracy config ≤ 10000000 →
        gmaps_parse_response build (gclue_ip_init_accuracy config) description
            (some (.finite la, .finite lo, zoom)) =
          .returns (some { latitude := .finite la
                           longitude := .finite lo
                           accuracy := .finite (gclue_config_get_ip_accuracy config)
                           description := description })) ∧
      (¬ build.accuracy_unknown < gclue_config_get_ip_accuracy config → zoom ≤ 24 →
        gmaps_parse_response build (gclue_ip_init_accuracy config) description
            (some (.finite la, .finite lo, zoom)) =
          .returns (some { latitude := .finite la
                           longitude := .finite lo
                           accuracy := .finite (gmaps_accuracy_table zoom)
                           description := description }))) := by
  have hgt : (gclue_ip_init_accuracy config).accuracy.gt (accuracy_unknown build) =
      decide (build.accuracy_unknown < gclue_config_get_ip_accuracy config) := rfl
  refine ⟨⟨?_, ?_, ?_⟩, ?_, ?_, ?_⟩
  · intro parsed l hl
    simp only [ichnaea_parse_response, hgt, decide_eq_true_eq] at hl
    by_cases hc : build.accuracy_unknown < gclue_config_get_ip_accuracy config
    · simp only [hc, if_true, Option.some.injEq] at hl ⊢
      rw [← hl]; rfl
    · simp only [hc, if_false, Option.some.injEq] at hl ⊢
      rw [← hl]; rfl
  · intro latitude longitude zoom l hl
    simp only [gmaps_parse_response, hgt, decide_eq_true_eq] at hl
    by_cases hc : build.accuracy_unknown < gclue_config_get_ip_accuracy config
    · simp only [hc, if_true, CResult.bind] at hl ⊢
      split_ifs at hl
      · cases hl
      · simp only [CResult.returns.injEq, Option.some.injEq] at hl
        rw [← hl]; rfl
    · simp only [hc, if_false] at hl ⊢
      cases hz : gmaps_zoom_accuracy zoom with
      | undefined => simp [hz, CResult.bind] at hl
      | returns a =>
        simp only [hz, CResult.bind] at hl
        split_ifs at hl
        · cases hl
        · simp only [CResult.returns.injEq, Option.some.injEq] at hl
          rw [← hl]; rfl
  · intro latitude longitude l hl
    simp only [reallyfreegeoip_parse_response, hgt, decide_eq_true_eq] at hl
    by_cases hc : build.accuracy_unknown < gclue_config_get_ip_accuracy config
    · simp only [hc, if_true] at hl ⊢
      split_ifs at hl
      simp only [Option.some.injEq] at hl
      rw [← hl]; rfl
    · simp only [hc, if_false] at hl ⊢
      split_ifs at hl
      simp only [Option.some.injEq] at hl
      rw [← hl]; rfl
  · intro parsed
    simp only [ichnaea_parse_response, hgt, decide_eq_true_eq]
    by_cases hc : build.accuracy_unknown < gclue_config_get_ip_accuracy config
    · simp only [hc, if_true]; rfl
    · simp only [hc, if_false]; rfl
  · intro la lo h1 h2 h3 h4
    rw [reallyfreegeoip_parse_in_range build _ description la lo h1 h2 h3 h4, hgt]
    by_cases hc : build.accuracy_unknown < gclue_config_get_ip_accuracy config
    · simp only [hc, decide_True, if_true]; rfl
    · simp only [hc, decide_False, Bool.false_eq_true, if_false]; rfl
  · intro la lo zoom h1 h2 h3 h4
    constructor
    · intro hc h5 h6
      exact gmaps_parse_in_range build _ description la lo _ zoom h1 h2 h3 h4
        (by rw [hgt]; simp only [hc, decide_True, if_true]; rfl) h5 h6
    · intro hc hz
      obtain ⟨b1, b2, _⟩ := gmaps_accuracy_table_bounds zoom hz
      exact gmaps_parse_in_range build _ description la lo _ zoom h1 h2 h3 h4
        (by rw [hgt]; simp only [hc, decide_False, Bool.false_eq_true, if_false]
            exact gmaps_zoom_accuracy_table zoom hz) b1 b2

theorem ip_configured_accuracy :
    gclue_config_get_ip_accuracy
      (gclue_config_init build_all (some key_file_ip_accuracy) none) = 500 := by
  decide

theorem ip_unconfigured_accuracy :
    gclue_config_get_ip_accuracy
      (gclue_config_init build_all (some key_file_empty) none) = -1 := by
  decide

theorem ip_accuracy_configured_or_default_witness :
    (reallyfreegeoip_parse_response build_all ip_configured none
          (some (.finite 48, .finite 2)) =
        some { latitude := .finite 48, longitude := .finite 2, accuracy := .finite 500,
               description := none } ∧
      gmaps_parse_response build_all ip_configured none (some (.finite 48, .finite 2, 10)) =
        .returns (some { latitude := .finite 48, longitude := .finite 2,
                         accuracy := .finite 500, description := none }) ∧
      ichnaea_parse_response build_all ip_configured (some location_reported) =
        some { latitude := .finite 48, longitude := .finite 2, accuracy := .finite 500,
               description := some "GeoIP (ichnaea)" }) ∧
    (reallyfreegeoip_parse_response build_all ip_default none
          (some (.finite 48, .finite 2)) =
        some { latitude := .finite 48, longitude := .finite 2, accuracy := .finite 20000,
               description := none } ∧
      gmaps_parse_response build_all ip_default none (some (.finite 48, .finite 2, 12)) =
        .returns (some { latitude := .finite 48, longitude := .finite 2,
                         accuracy := .finite 5000, description := none }) ∧
      ichnaea_parse_response build_all ip_default (some location_reported) =
        some { latitude := .finite 48, longitude := .finite 2, accuracy := .finite 5000,
               description := some "GeoIP (ichnaea)" }) := by
  have hc := ip_configured_accuracy
  have hd := ip_unconfigured_accuracy
  have hu : build_all.accuracy_unknown = -1 := rfl
  have hA := ip_accuracy_configured_or_default build_all
    (gclue_config_init build_all (some key_file_ip_accuracy) none) none
  have hB := ip_accuracy_configured_or_default build_all
    (gclue_config_init build_all (some key_file_empty) none) none
  rw [hc, hu] at hA
  rw [hd, hu] at hB
  refine ⟨⟨?_, ?_, ?_⟩, ?_, ?_, ?_⟩
  · have h := hA.2.2.1 48 2 (by norm_num) (by norm_num) (by norm_num) (by norm_num)
    rw [if_pos (by norm_num)] at h
    exact h
  · exact (hA.2.2.2 48 2 10 (by norm_num) (by norm_num) (by norm_num) (by norm_num)).1
      (by norm_num) (by norm_num) (by norm_num)
  · have h := hA.2.1 location_reported
    rw [if_pos (by norm_num)] at h
    exact h
  · have h := hB.2.2.1 48 2 (by norm_num) (by norm_num) (by norm_num) (by norm_num)
    rw [if_neg (by norm_num)] at h
    exact h
  · exact (hB.2.2.2 48 2 12 (by norm_num) (by norm_num) (by norm_num) (by norm_num)).2
      (by norm_num) (by norm_num)
  · have h := hB.2.1 location_reported
    rw [if_neg (by norm_num)] at h
    exact h

/-- C19, as stated, fails: with no `ip/accuracy` configured, the reallyfreegeoip parser
returns a fix whose accuracy radius is 20000 m, above 15000 m. -/
theorem city_bound_counterexample :
    ip_default.accuracy = accuracy_unknown build_all ∧
      reallyfreegeoip_parse_response build_all ip_default (some "GeoIP (reallyfreegeoip)")
          (some (.finite 48, .finite 2)) =
        some { latitude := .finite 48, longitude := .finite 2, accuracy := .finite 20000,
               description := some "GeoIP (reallyfreegeoip)" } ∧
      ¬ ((20000 : ℚ) ≤ 15000) := by
  refine ⟨by decide, ?_, by norm_num⟩
  simp only [reallyfreegeoip_parse_response, ip_default_not_configured, Bool.false_eq_true,
    if_false]
  norm_num [Double.lt, Double.gt, Double.le, gclue_location_new, REALLYFREEGEOIP_ACCURACY]

/-- C19, amended. When no `ip/accuracy` is configured, every fix of the reallyfreegeoip
parser has an accuracy radius of exactly 20000 m, and every fix of the gmaps parser
for a zoom of at most 24 has the radius the zoom gives: 10000 km halved zoom - 1
times, to one significant figure, which lies between 1 m and 10000000 m and is at
most 15000 m exactly when the zoom is at least 11.  Both parsers do return these
fixes for all coordinates within their range tests.  Whatever the radius is, the IP
source advertises the City level when the network is available, and the None level
when it is not. -/
theorem ip_default_accuracy_values (build : BuildConfig) (config : GClueConfigPrivate)
    (description : Option String)
    (hcfg : gclue_config_get_ip_accuracy config = build.accuracy_unknown) :
    (∀ latitude longitude l,
        reallyfreegeoip_parse_response build (gclue_ip_init_accuracy config) description
            (some (latitude, longitude)) = some l →
        l.accuracy = .finite 20000) ∧
      (∀ latitude longitude zoom l, zoom ≤ 24 →
        gmaps_parse_response build (gclue_ip_init_accuracy config) description
            (some (latitude, longitude, zoom)) = .returns (some l) →
        l.accuracy = .finite (gmaps_accuracy_table zoom) ∧
          1 ≤ gmaps_accuracy_table zoom ∧ gmaps_accuracy_table zoom ≤ 10000000 ∧
          (gmaps_accuracy_table zoom ≤ 15000 ↔ 11 ≤ zoom)) ∧
      (∀ la lo : ℚ, -90 ≤ la → la ≤ 90 → -180 < lo → lo ≤ 180 →
        reallyfreegeoip_parse_response build (gclue_ip_init_accuracy config) description
            (some (.finite la, .finite lo)) =
          some { latitude := .finite la, longitude := .finite lo,
                 accuracy := .finite 20000, description := description }) ∧
      (∀ (la lo : ℚ) (zoom : Nat), -180 < la → la ≤ 180 → -90 ≤ lo → lo ≤ 90 → zoom ≤ 24 →
        gmaps_parse_response build (gclue_ip_init_accuracy config) description
            (some (.finite la, .finite lo, zoom)) =
          .returns (some { latitude := .finite la, longitude := .finite lo,
                           accuracy := .finite (gmaps_accuracy_table zoom),
                           description := description })) ∧
      (gclue_ip_get_available_accuracy_level true = GCLUE_ACCURACY_LEVEL_CITY ∧
        gclue_ip_get_available_accuracy_level false = GCLUE_ACCURACY_LEVEL_NONE ∧
        GCLUE_ACCURACY_LEVEL_NONE < GCLUE_ACCURACY_LEVEL_CITY) := by
  have hgt : (gclue_ip_init_accuracy config).accuracy.gt (accuracy_unknown build) = false := by
    simp [gclue_ip_init_accuracy, accuracy_unknown, Double.gt, Double.lt, hcfg]
  refine ⟨?_, ?_, ?_, ?_, rfl, rfl, by decide⟩
  · intro latitude longitude l hl
    simp only [reallyfreegeoip_parse_response, hgt, Bool.false_eq_true, if_false] at hl
    split_ifs at hl
    simp only [Option.some.injEq] at hl
    rw [← hl]; rfl
  · intro latitude longitude zoom l hz hl
    refine ⟨?_, gmaps_accuracy_table_bounds zoom hz⟩
    simp only [gmaps_parse_response, hgt, Bool.false_eq_true, if_false,
      gmaps_zoom_accuracy_table zoom hz, CResult.bind] at hl
    split_ifs at hl
    · cases hl
    · simp only [CResult.returns.injEq, Option.some.injEq] at hl
      rw [← hl]; rfl
  · intro la lo h1 h2 h3 h4
    rw [reallyfreegeoip_parse_in_range build _ description la lo h1 h2 h3 h4, hgt]
    rfl
  · intro la lo zoom h1 h2 h3 h4 hz
    obtain ⟨b1, b2, _⟩ := gmaps_accuracy_table_bounds zoom hz
    exact gmaps_parse_in_range build _ description la lo _ zoom h1 h2 h3 h4
      (by rw [hgt]; simp only [Bool.false_eq_true, if_false]
          exact gmaps_zoom_accuracy_table zoom hz) b1 b2

theorem ip_default_accuracy_values_witness :
    reallyfreegeoip_parse_response build_all ip_default none (some (.finite 48, .finite 2)) =
        some { latitude := .finite 48, longitude := .finite 2, accuracy := .finite 20000,
               description := none } ∧
      gmaps_parse_response build_all ip_default none (some (.finite 48, .finite 2, 10)) =
        .returns (some { latitude := .finite 48, longitude := .finite 2,
                         accuracy := .finite 20000, description := none }) ∧
      gclue_ip_get_available_accuracy_level true = 4 := by
  have h := ip_default_accuracy_values build_all
    (gclue_config_init build_all (some key_file_empty) none) none (by decide)
  refine ⟨h.2.2.1 48 2 (by norm_num) (by norm_num) (by norm_num) (by norm_num), ?_,
    h.2.2.2.2.1⟩
  have hz : gmaps_accuracy_table 10 = 20000 := rfl
  have hg := h.2.2.2.1 48 2 10 (by norm_num) (by norm_num) (by norm_num) (by norm_num)
    (by norm_num)
  rw [hz] at hg
  exact hg

/-- C20: the code at a failing input.  With no accuracy configured, a GMaps match that
reads latitude 48, longitude 2 and zoom 25 yields a location whose accuracy is a NaN:
ten thousand kilometres halved 24 times is below one metre, the integer `base` of
`round_to_1fig` is then zero, and the range test does not reject a NaN.  The same
holds for every zoom from 25 to 31, and from zoom 32 on the shift is undefined. -/
theorem gmaps_accuracy_nan_at_zoom_25 :
    gmaps_parse_response build_all ip_default (some "GeoIP (gmaps)")
        (some (.finite 48, .finite 2, 25)) =
      .returns (some
        { latitude := .finite 48, longitude := .finite 2, accuracy := .nan,
          description := some "GeoIP (gmaps)" }) ∧
      (∀ zoom, 25 ≤ zoom → zoom ≤ 31 → gmaps_zoom_accuracy zoom = .returns .nan) ∧
      (∀ zoom, 32 ≤ zoom → gmaps_zoom_accuracy zoom = .undefined) := by
  refine ⟨?_, gmaps_zoom_accuracy_nan, gmaps_zoom_accuracy_undefined⟩
  unfold gmaps_parse_response
  simp only []
  rw [ip_default_not_configured, gmaps_zoom_accuracy_nan 25 (by norm_num) (by norm_num)]
  simp only [Bool.false_eq_true, if_false, CResult.bind]
  norm_num [Double.le, Double.lt, Double.gt, GMAPS_SCALE, gclue_location_new]

/-! ## The three value loaders -/

/-- C25. For each of `load_boolean_value`, `load_string_value` and
`load_string_list_value`, whatever the key file, the group, the key and the value
stored before: when the key is absent from the file, or its value does not parse, the
function returns FALSE and the stored value is the one from before; when the key is
present and its value parses, the function returns TRUE and the stored value is the
file's value. -/
theorem load_value_functions_frame (key_file : GKeyFile) (group_name key : String) :
    (∀ storage : Bool,
      ((g_key_file_has_key key_file group_name key = false ∨
          g_key_file_get_boolean key_file group_name key = none) →
        load_boolean_value key_file group_name key storage = (false, storage)) ∧
      (∀ value, g_key_file_has_key key_file group_name key = true →
        g_key_file_get_boolean key_file group_name key = some value →
        load_boolean_value key_file group_name key storage = (true, value))) ∧
    (∀ storage : Option String,
      ((g_key_file_has_key key_file group_name key = false ∨
          g_key_file_get_string key_file group_name key = none) →
        load_string_value key_file group_name key storage = (false, storage)) ∧
      (∀ value, g_key_file_has_key key_file group_name key = true →
        g_key_file_get_string key_file group_name key = some value →
        load_string_value key_file group_name key storage = (true, some value))) ∧
    (∀ storage : List String,
      ((g_key_file_has_key key_file group_name key = false ∨
          g_key_file_get_string_list key_file group_name key = none) →
        load_string_list_value key_file group_name key storage = (false, storage)) ∧
      (∀ value, g_key_file_has_key key_file group_name key = true →
        g_key_file_get_string_list key_file group_name key = some value →
        load_string_list_value key_file group_name key storage = (true, value))) := by
  refine ⟨fun storage => ⟨?_, ?_⟩, fun storage => ⟨?_, ?_⟩, fun storage => ⟨?_, ?_⟩⟩
  · rintro (h | h)
    · simp [load_boolean_value, h]
    · unfold load_boolean_value; rw [h]; split <;> rfl
  · intro value hk hv
    simp [load_boolean_value, hk, hv]
  · rintro (h | h)
    · simp [load_string_value, h]
    · unfold load_string_value; rw [h]; split <;> rfl
  · intro value hk hv
    simp [load_string_value, hk, hv]
  · rintro (h | h)
    · simp [load_string_list_value, h]
    · unfold load_string_list_value; rw [h]; split <;> rfl
  · intro value hk hv
    simp [load_string_list_value, hk, hv]

theorem load_value_functions_frame_witness :
    load_boolean_value key_file_3g_off "3g" "enable" true = (true, false) ∧
      load_boolean_value key_file_3g_off "wifi" "url" true = (false, true) ∧
      load_string_value key_file_3g_off "3g" "url" (some "https://example.org") =
        (false, some "https://example.org") ∧
      load_string_list_value key_file_3g_off "wifi" "url" ["agent"] = (true, []) :=
  ⟨((load_value_functions_frame key_file_3g_off "3g" "enable").1 true).2 false
      (by decide) (by decide),
    ((load_value_functions_frame key_file_3g_off "wifi" "url").1 true).1
      (Or.inr (by decide)),
    ((load_value_functions_frame key_file_3g_off "3g" "url").2.1
      (some "https://example.org")).1 (Or.inl (by decide)),
    ((load_value_functions_frame key_file_3g_off "wifi" "url").2.2 ["agent"]).2 []
      (by decide) (by decide)⟩

/-! ## A file that fails to load -/

/-- C30. When the configuration file fails to load, `load_config_file` returns the
configuration it was given, so the agent whitelist, every app config entry, every
enable flag, URL, nickname, the IP method and the IP accuracy keep their values; hence
in any sequence of files the ones that fail to load can be left out without changing
the outcome. -/
theorem load_config_file_failed_load (build : BuildConfig) (priv : GClueConfigPrivate) :
    load_config_file build priv none = priv ∧
    ∀ files : List (Option GKeyFile),
      files.foldl (load_config_file build) priv =
        (files.filter Option.isSome).foldl (load_config_file build) priv := by
  refine ⟨rfl, fun files => ?_⟩
  induction files generalizing priv with
  | nil => rfl
  | cons f fs ih =>
    cases f with
    | none => simpa [List.filter, load_config_file] using ih priv
    | some kf => simpa [List.filter] using ih _

/-! ## The invariant of the app config list -/

theorem update_app_config_map_id (app_configs : List AppConfig) (id : String)
    (f : AppConfig → AppConfig) (hf : ∀ c, (f c).id = c.id) :
    (update_app_config app_configs id f).map AppConfig.id = app_configs.map AppConfig.id := by
  induction app_configs with
  | nil => rfl
  | cons c rest ih =>
    unfold update_app_config
    split_ifs
    · simp [hf]
    · simp [ih]

theorem overwrite_app_config_id (allowed system : Option Bool) (users : Option (List Int))
    (c : AppConfig) : (overwrite_app_config allowed system users c).id = c.id := by
  rw [overwrite_app_config_eq]

theorem app_configs_invariant_of_map_id {l l' : List AppConfig}
    (h : l'.map AppConfig.id = l.map AppConfig.id) (hl : app_configs_invariant l) :
    app_configs_invariant l' := by
  refine ⟨h ▸ hl.1, fun c hc => ?_⟩
  have hmem : c.id ∈ l'.map AppConfig.id := List.mem_map_of_mem _ hc
  rw [h] at hmem
  obtain ⟨d, hd, hid⟩ := List.mem_map.mp hmem
  rw [← hid]
  exact hl.2 d hd

/-- One iteration of the loop of `load_app_configs` keeps the invariant: a new entry
is added only under an id that is neither reserved nor in the list, and an overwrite
keeps every id. -/
theorem load_app_config_group_invariant (key_file : GKeyFile) (app_configs : List AppConfig)
    (group : String) (h : app_configs_invariant app_configs) :
    app_configs_invariant (load_app_config_group key_file app_configs group) := by
  unfold load_app_config_group
  by_cases hk : group ∈ known_groups
  · rw [if_pos ((known_groups_any group).mpr hk)]
    exact h
  · have hk2 : (known_groups.any fun known => strcmp group known == 0) = false := by
      rw [← Bool.not_eq_true, known_groups_any]
      exact hk
    rw [hk2]
    simp only [Bool.false_eq_true, if_false]
    split_ifs with h1 h2 h3 h4
    · exact h
    · exact h
    · exact h
    · have hnone : find_app_config app_configs group = none := by
        simpa [Option.isNone_iff_eq_none] using h4
      have hne := (find_app_config_eq_none app_configs group).mp hnone
      refine ⟨?_, ?_⟩
      · rw [List.map_cons, overwrite_app_config_id, List.nodup_cons]
        refine ⟨?_, h.1⟩
        intro hmem
        obtain ⟨d, hd, hid⟩ := List.mem_map.mp hmem
        exact hne d hd hid
      · intro c hc
        rcases List.mem_cons.mp hc with hc | hc
        · rw [hc, overwrite_app_config_id]
          exact hk
        · exact h.2 c hc
    · exact app_configs_invariant_of_map_id
        (update_app_config_map_id _ _ _ (overwrite_app_config_id _ _ _)) h

theorem load_config_file_app_configs (build : BuildConfig) (priv : GClueConfigPrivate)
    (key_file : GKeyFile) :
    (load_config_file build priv (some key_file)).app_configs =
      (g_key_file_get_groups key_file).foldl (load_app_config_group key_file)
        priv.app_configs := rfl

theorem load_config_file_invariant (build : BuildConfig) (priv : GClueConfigPrivate)
    (loaded : Option GKeyFile) (h : app_configs_invariant priv.app_configs) :
    app_configs_invariant (load_config_file build priv loaded).app_configs := by
  cases loaded with
  | none => exact h
  | some key_file =>
    rw [load_config_file_app_configs]
    exact foldl_invariant app_configs_invariant _ _ _ h
      (fun s g _ hs => load_app_config_group_invariant key_file s g hs)

/-- C29. After the defaults and any sequence of configuration files, loaded or
failed, and likewise after `gclue_config_init` on any base file and drop-in directory:
no two entries of the app config list have the same id, and no entry has one of the
reserved section names agent, wifi, 3g, cdma, modem-gps, network-nmea, compass,
static-source, ip as its id. -/
theorem app_configs_invariant_after_load (build : BuildConfig) (base : Option GKeyFile)
    (dir : Option (List DirEntry)) (files : List (Option GKeyFile)) :
    app_configs_invariant
        (files.foldl (load_config_file build) (gclue_config_init_defaults build)).app_configs ∧
      app_configs_invariant (gclue_config_init build base dir).app_configs := by
  have h0 : app_configs_invariant (gclue_config_init_defaults build).app_configs :=
    ⟨List.nodup_nil, fun c hc => by cases hc⟩
  have hall : ∀ l : List (Option GKeyFile), app_configs_invariant
      (l.foldl (load_config_file build) (gclue_config_init_defaults build)).app_configs :=
    fun l => foldl_invariant (fun s => app_configs_invariant s.app_configs) _ _ _ h0
      (fun s f _ hs => load_config_file_invariant build s f hs)
  refine ⟨hall files, ?_⟩
  unfold gclue_config_init
  rw [(gclue_config_init_out_unchanged _).2.2.2.2.2.2.2.2.2.2.2.2,
    gclue_config_init_load_eq_foldl]
  exact hall _

/-! ## The method dispatch and the locate URL of the IP source -/

theorem ip_method_mem_dispatch (config : GClueConfigPrivate)
    (h : config.ip_method ∈ [some "ichnaea", some "gmaps", some "reallyfreegeoip"]) :
    ((gclue_config_get_ip_method config = some "ichnaea" ∧
        gclue_ip_class_init config = some .ichnaea) ∨
      (gclue_config_get_ip_method config = some "gmaps" ∧
        gclue_ip_class_init config = some .gmaps) ∨
      (gclue_config_get_ip_method config = some "reallyfreegeoip" ∧
        gclue_ip_class_init config = some .reallyfreegeoip)) ∧
    ∃ url, gclue_ip_init_locate_url config = some url := by
  simp only [List.mem_cons, List.mem_singleton, List.not_mem_nil, or_false] at h
  unfold gclue_ip_class_init gclue_ip_init_locate_url gclue_config_get_ip_method
  rcases h with h | h | h <;> rw [h]
  · refine ⟨Or.inl ⟨rfl, by decide⟩, ?_⟩
    rw [if_pos (by decide)]
    exact ⟨_, rfl⟩
  · refine ⟨Or.inr (Or.inl ⟨rfl, by decide⟩), ?_⟩
    rw [if_neg (by decide), if_pos (by decide)]
    exact ⟨_, rfl⟩
  · refine ⟨Or.inr (Or.inr ⟨rfl, by decide⟩), ?_⟩
    rw [if_neg (by decide), if_neg (by decide), if_pos (by decide)]
    exact ⟨_, rfl⟩

/-- C27. Whatever the configuration files are: when `gclue_config_get_enable_ip_source`
returns TRUE after initialisation, the dispatch of `gclue_ip_class_init` selects the
branch of the configured method, which is one of ichnaea, gmaps and reallyfreegeoip,
and `gclue_ip_init` sets a locate URL; neither reaches the branch of the fatal
"Unknown IP method" message. -/
theorem ip_method_dispatch_known (build : BuildConfig) (base : Option GKeyFile)
    (dir : Option (List DirEntry))
    (henabled : gclue_config_get_enable_ip_source (gclue_config_init build base dir) = true) :
    ((gclue_config_get_ip_method (gclue_config_init build base dir) = some "ichnaea" ∧
        gclue_ip_class_init (gclue_config_init build base dir) = some .ichnaea) ∨
      (gclue_config_get_ip_method (gclue_config_init build base dir) = some "gmaps" ∧
        gclue_ip_class_init (gclue_config_init build base dir) = some .gmaps) ∨
      (gclue_config_get_ip_method (gclue_config_init build base dir) = some "reallyfreegeoip" ∧
        gclue_ip_class_init (gclue_config_init build base dir) = some .reallyfreegeoip)) ∧
    ∃ url, gclue_ip_init_locate_url (gclue_config_init build base dir) = some url := by
  apply ip_method_mem_dispatch
  unfold gclue_config_get_enable_ip_source gclue_config_init at henabled
  unfold gclue_config_init
  obtain ⟨h1, h2⟩ := gclue_config_init_out_ip (gclue_config_init_load build base dir)
  rw [h1, Bool.and_eq_true, decide_eq_true_eq] at henabled
  rcases h2 with h2 | h2
  · rw [h1, henabled.1, Bool.true_and, decide_eq_false_iff_not] at h2
    exact absurd henabled.2 h2
  · rw [h2]
    exact henabled.2

theorem ip_method_dispatch_known_witness :
    gclue_config_get_enable_ip_source
        (gclue_config_init build_all (some key_file_ip_gmaps) none) = true ∧
      gclue_ip_class_init (gclue_config_init build_all (some key_file_ip_gmaps) none) =
        some .gmaps ∧
      ∃ url, gclue_ip_init_locate_url
        (gclue_config_init build_all (some key_file_ip_gmaps) none) = some url :=
  ⟨by decide, by decide,
    (ip_method_dispatch_known build_all (some key_file_ip_gmaps) none (by decide)).2⟩

/-- C21 fails on this input: the base file chooses the ichnaea method and sets `ip/url`
to the empty string, the Wi-Fi locate URL is the BeaconDB default.  The IP source is
enabled, and `gclue_ip_init` sets the empty string as the locate URL, not the Wi-Fi
URL; `gclue_config_print` reports "(method default)" as the IP URL of the same
configuration. -/
theorem empty_ip_url_is_locate_url :
    gclue_config_get_enable_ip_source
        (gclue_config_init build_all (some key_file_ip_empty_url) none) = true ∧
      gclue_config_get_ip_url
        (gclue_config_init build_all (some key_file_ip_empty_url) none) = some "" ∧
      gclue_config_get_wifi_url
        (gclue_config_init build_all (some key_file_ip_empty_url) none) =
          some "https://api.beacondb.net/v1/geolocate" ∧
      gclue_ip_init_locate_url
        (gclue_config_init build_all (some key_file_ip_empty_url) none) = some "" ∧
      gclue_config_print_ip_url
        (gclue_config_init build_all (some key_file_ip_empty_url) none) =
          "(method default)" := by
  decide

/-! ## Redaction of the API key -/

/-- C28 fails on this input: in "https://example.com/abc?key=abc" the last "key=" is
preceded by a question mark and followed by the key value abc, which also occurs in
the path; `redact_api_key` replaces the occurrence in the path and returns a string
that still ends in "key=abc".  With a key value that occurs nowhere else the result is
the prefix followed by the redaction mark. -/
theorem redact_api_key_keeps_key :
    redact_api_key (some "https://example.com/abc?key=abc") =
        some "https://example.com/<redacted>?key=abc" ∧
      redact_api_key (some "https://example.com/v1?key=secret") =
        some "https://example.com/v1?key=<redacted>" := by
  decide

/-! ## The client library -/

/-- C22, as stated, fails: without "/.flatpak-info", the values "10" and "1abc" of
GTK_USE_PORTAL select the portal, not the direct bus. -/
theorem gtk_use_portal_first_char_counterexample :
    (gclue_simple_init_async none false (some "10")).1 = .portal ∧
      (gclue_simple_init_async none false (some "1abc")).1 = .portal := by
  decide

theorem head_eq_one_iff (v : String) :
    v.data.head? = some '1' ↔ ∃ rest : String, v = "1" ++ rest := by
  constructor
  · intro h
    obtain ⟨l⟩ := v
    cases l with
    | nil => cases h
    | cons c cs =>
      simp only [List.head?_cons, Option.some.injEq] at h
      subst h
      exact ⟨⟨cs⟩, rfl⟩
  · rintro ⟨rest, rfl⟩
    rfl

/-- C22, amended. At the first check in a process, `gclue_simple_init_async` routes
through the portal if and only if "/.flatpak-info" exists or the value of
GTK_USE_PORTAL begins with the character 1, and uses the direct bus otherwise: without
"/.flatpak-info", unset, empty and "0" give the direct bus, and "1", "10" and "1abc"
give the portal. -/
theorem init_async_route_iff (flatpak_info_exists : Bool) (gtk_use_portal : Option String) :
    ((gclue_simple_init_async none flatpak_info_exists gtk_use_portal).1 = .portal ↔
      flatpak_info_exists = true ∨
        ∃ rest : String, gtk_use_portal = some ("1" ++ rest)) ∧
    ((gclue_simple_init_async none flatpak_info_exists gtk_use_portal).1 = .direct_bus ↔
      ¬ (flatpak_info_exists = true ∨
        ∃ rest : String, gtk_use_portal = some ("1" ++ rest))) ∧
    ((gclue_simple_init_async none false none).1 = .direct_bus ∧
      (gclue_simple_init_async none false (some "")).1 = .direct_bus ∧
      (gclue_simple_init_async none false (some "0")).1 = .direct_bus ∧
      (gclue_simple_init_async none false (some "1")).1 = .portal ∧
      (gclue_simple_init_async none false (some "10")).1 = .portal ∧
      (gclue_simple_init_async none false (some "1abc")).1 = .portal) := by
  have key : (gclue_simple_init_async none flatpak_info_exists gtk_use_portal).1 = .portal ↔
      flatpak_info_exists = true ∨
        ∃ rest : String, gtk_use_portal = some ("1" ++ rest) := by
    cases flatpak_info_exists with
    | true => simp [gclue_simple_init_async, should_use_portal]
    | false =>
      cases gtk_use_portal with
      | none => simp [gclue_simple_init_async, should_use_portal]
      | some v =>
        have hv := head_eq_one_iff v
        by_cases h : v.data.head? = some '1'
        · have h2 := hv.mp h
          simp [gclue_simple_init_async, should_use_portal, h, h2]
        · have h2 : ¬ ∃ rest : String, v = "1" ++ rest := fun hx => h (hv.mpr hx)
          simp [gclue_simple_init_async, should_use_portal, h, h2]
  refine ⟨key, ?_, by decide⟩
  rw [← key]
  cases (gclue_simple_init_async none flatpak_info_exists gtk_use_portal).1 <;> simp

/-- C23 fails on this input: an instance made by `gclue_simple_new_with_thresholds`
with a time threshold of 10 and a distance threshold of 100.  On the portal route
`on_portal_created` asks for a session with both thresholds 0; on the direct-bus route
`on_client_created` sets the two thresholds 100 and 10 on the client. -/
theorem portal_session_thresholds_zero :
    simple_with_thresholds.time_threshold = 10 ∧
      simple_with_thresholds.distance_threshold = 100 ∧
      on_portal_created simple_with_thresholds false "geoclue7" =
        some { session_handle_token := "geoclue7", distance_threshold := 0,
               time_threshold := 0, accuracy := 5 } ∧
      (on_client_created simple_with_thresholds (some client_fresh)).client =
        some { distance_threshold := 100, time_threshold := 10, location := some "/" } := by
  decide

/-- C24. In `on_location_updated`, and in `on_client_started` for the initial
`Location` property of a client that started: a new path that is absent or is "/"
starts no creation of a location proxy, every other path starts the creation of a
proxy for exactly that path, and in all cases the private data of the GClueSimple,
its location included, is unchanged.  A client that failed to start creates none. -/
theorem on_location_updated_no_fix (priv : GClueSimplePrivate) (client : GClueClient)
    (new_location : Option String) :
    ((on_location_updated priv new_location).1 = priv ∧
      ((new_location = none ∨ new_location = some "/") →
        (on_location_updated priv new_location).2 = none) ∧
      (∀ path, new_location = some path → path ≠ "/" →
        (on_location_updated priv new_location).2 = some path)) ∧
    ((on_client_started priv client false).1 = priv ∧
      ((gclue_client_get_location client = none ∨
          gclue_client_get_location client = some "/") →
        (on_client_started priv client false).2 = none) ∧
      (∀ path, gclue_client_get_location client = some path → path ≠ "/" →
        (on_client_started priv client false).2 = some path)) ∧
    on_client_started priv client true = (priv, none) := by
  have key : ∀ loc : Option String,
      (on_location_updated priv loc).1 = priv ∧
      ((loc = none ∨ loc = some "/") → (on_location_updated priv loc).2 = none) ∧
      (∀ path, loc = some path → path ≠ "/" →
        (on_location_updated priv loc).2 = some path) := by
    intro loc
    cases loc with
    | none => simp [on_location_updated]
    | some p =>
      by_cases hp : p = "/"
      · subst hp
        have h : (g_strcmp0 (some "/") (some "/") == 0) = true := by decide
        simp [on_location_updated, h]
      · have h : (g_strcmp0 (some p) (some "/") == 0) = false := by
          simp only [g_strcmp0, beq_eq_false_iff_ne, ne_eq, strcmp_eq_zero]
          exact hp
        simp [on_location_updated, h, hp]
  exact ⟨key new_location, key (gclue_client_get_location client), rfl⟩

theorem on_location_updated_no_fix_witness :
    (on_location_updated simple_with_thresholds (some "/")).2 = none ∧
      (on_location_updated simple_with_thresholds (some location_path)).2 =
        some location_path ∧
      (on_client_started simple_with_thresholds client_fresh false).2 = none :=
  ⟨(on_location_updated_no_fix simple_with_thresholds client_fresh (some "/")).1.2.1
      (Or.inr rfl),
    (on_location_updated_no_fix simple_with_thresholds client_fresh
      (some location_path)).1.2.2 location_path rfl (by decide),
    (on_location_updated_no_fix simple_with_thresholds client_fresh none).2.1.2.1
      (Or.inr rfl)⟩

/-- C26. The function `accuracy_level_to_portal` maps the six accuracy levels None (0),
Country (1), City (4), Neighborhood (5), Street (6) and Exact (8) to 0, 1, 2, 3, 4 and
5 in this order; on these six it is strictly order-preserving and injective, and it
never reaches the assertion of the default branch. -/
theorem accuracy_level_to_portal_order :
    accuracy_levels = [0, 1, 4, 5, 6, 8] ∧
    accuracy_levels.map accuracy_level_to_portal =
      [some 0, some 1, some 2, some 3, some 4, some 5] ∧
    (∀ a ∈ accuracy_levels, ∀ b ∈ accuracy_levels, a < b →
      ∃ pa pb, accuracy_level_to_portal a = some pa ∧
        accuracy_level_to_portal b = some pb ∧ pa < pb) ∧
    (∀ a ∈ accuracy_levels, ∀ b ∈ accuracy_levels,
      accuracy_level_to_portal a = accuracy_level_to_portal b → a = b) ∧
    (∀ a ∈ accuracy_levels, accuracy_level_to_portal a ≠ none) := by
  refine ⟨rfl, by decide, ?_, by decide, by decide⟩
  intro a ha b hb
  simp only [accuracy_levels, List.mem_cons, List.mem_singleton, List.not_mem_nil,
    or_false] at ha hb
  rcases ha with rfl | rfl | rfl | rfl | rfl | rfl <;>
    rcases hb with rfl | rfl | rfl | rfl | rfl | rfl <;>
    first
      | (intro h; exact absurd h (by decide))
      | exact fun _ => ⟨_, _, rfl, rfl, by decide⟩

end Geoclue
